import Mathlib

/-!
Shallow embedding of the AUTOSAR Front Light Management (FLM) safety core.

Each definition translates one function or data structure of the C++ source:
 - `src/src/BSW/E2E/E2E_P01.cpp`          (E2E Profile 01 library)
 - `src/src/Application/SwitchEvent/SwitchEvent.cpp`
 - `src/src/Application/LightRequest/LightRequest.cpp`
 - `src/src/Application/FLM/FLM_Application.cpp`
 - `src/src/Application/Headlight/Headlight.cpp`
 - `src/src/Application/SafetyMonitor/SafetyMonitor.cpp`

Machine integers are modelled as `Nat`; an explicit `% 2^w` is applied at
every update where the C type could wrap (uint8 counters, uint16 counters,
uint32 timestamps).  Byte buffers are `List Nat`.  Module-static variables
(system-time counters, the external safe-state trigger) are carried in a
`*_Module` record next to the component state record.
-/

/-! ## Numeric helpers for fixed-width arithmetic -/

/-- Wrap to uint8 range. -/
def wrap8 (n : Nat) : Nat := n % 256

/-- Wrap to uint16 range. -/
def wrap16 (n : Nat) : Nat := n % 65536

/-- Wrap to uint32 range. -/
def wrap32 (n : Nat) : Nat := n % 4294967296

/-- uint32 subtraction `a - b` with wrap-around, for operands already in range. -/
def sub32 (a b : Nat) : Nat := (a + 4294967296 - b % 4294967296) % 4294967296

/-! ## Shared application data types (`ComStack_Types.h`, `Rte_Type.h`) -/

/-- `LightSwitchCmd`: light switch command from CAN. -/
inductive LightSwitchCmd where
  | off | lowBeam | highBeam | auto
deriving DecidableEq

/-- `LightSwitchStatus`: switch command with validity and numeric E2E status. -/
structure LightSwitchStatus where
  command : LightSwitchCmd
  isValid : Bool
  e2eStatus : Nat
deriving DecidableEq

/-- `AmbientLightLevel`: filtered ADC value, lux value, validity flag. -/
structure AmbientLightLevel where
  adcValue : Nat
  luxValue : Nat
  isValid : Bool
deriving DecidableEq

/-- `SignalStatus` enumeration. -/
inductive SignalStatus where
  | valid | invalid | timeout | openCircuit | shortCircuit | plausibility
deriving DecidableEq

/-- `HeadlightCommand` enumeration. -/
inductive HeadlightCommand where
  | off | lowBeam | highBeam
deriving DecidableEq

/-- `HeadlightFaultStatus` enumeration. -/
inductive HeadlightFaultStatus where
  | none | openLoad | short | overcurrent
deriving DecidableEq

/-- `SafetyStatusType` enumeration. -/
inductive SafetyStatusType where
  | ok | warning | degraded | safeState
deriving DecidableEq

/-- `SafeStateReason` enumeration. -/
inductive SafeStateReason where
  | none | e2eFailure | wdgmFailure | multiFault | timeout | manual
deriving DecidableEq

/-- `FLM_StateType` enumeration. -/
inductive FLM_StateType where
  | init | normal | degraded | safe
deriving DecidableEq

/-- `WdgM_GlobalStatusType` enumeration. -/
inductive WdgM_GlobalStatusType where
  | ok | failed | expired | stopped | deactivated
deriving DecidableEq

/-- `E2E_P01CheckStatusType` enumeration. -/
inductive E2E_P01CheckStatusType where
  | ok | nonewdata | wrongcrc | sync | initial | repeated | okSomeLost | wrongSequence
deriving DecidableEq

/-- Numeric value of an `E2E_P01CheckStatusType` (the C enum encoding),
used where the source stores the status into a `uint8_t` field. -/
def E2E_P01CheckStatusType.toByte : E2E_P01CheckStatusType -> Nat
  | .ok => 0 | .nonewdata => 1 | .wrongcrc => 2 | .sync => 3
  | .initial => 4 | .repeated => 5 | .okSomeLost => 6 | .wrongSequence => 7

/-- `E2E_SMStateType` enumeration. -/
inductive E2E_SMStateType where
  | valid | deinit | nodata | init | invalid
deriving DecidableEq

/-! ## E2E Profile 01 library (`E2E_P01.cpp`) -/

/-- `E2E_P01ConfigType`: E2E Profile 01 configuration. -/
structure E2E_P01ConfigType where
  DataLength : Nat
  DataID : Nat
  MaxDeltaCounter : Nat
  MaxNoNewOrRepeatedData : Nat
  SyncCounter : Nat
  CounterOffset : Nat
  CRCOffset : Nat
  DataIDNibbleOffset : Nat
  DataIDMode : Bool
deriving DecidableEq

/-- `E2E_P01ProtectStateType`: sender-side protection state. -/
structure E2E_P01ProtectStateType where
  Counter : Nat
deriving DecidableEq

/-- `E2E_P01CheckStateType`: receiver-side check state. -/
structure E2E_P01CheckStateType where
  LastValidCounter : Nat
  MaxDeltaCounter : Nat
  WaitForFirstData : Bool
  NewDataAvailable : Bool
  LostData : Nat
  Status : E2E_P01CheckStatusType
  NoNewOrRepeatedDataCounter : Nat
  SyncCounter : Nat
deriving DecidableEq

/-- The CRC-8 lookup table `E2E_P01_CRC8_Table` (SAE-J1850, polynomial 0x1D),
transcribed entry for entry from the source. -/
def E2E_P01_CRC8_Table : List Nat := [
  0x00, 0x1D, 0x3A, 0x27, 0x74, 0x69, 0x4E, 0x53,
  0xE8, 0xF5, 0xD2, 0xCF, 0x9C, 0x81, 0xA6, 0xBB,
  0xCD, 0xD0, 0xF7, 0xEA, 0xB9, 0xA4, 0x83, 0x9E,
  0x25, 0x38, 0x1F, 0x02, 0x51, 0x4C, 0x6B, 0x76,
  0x87, 0x9A, 0xBD, 0xA0, 0xF3, 0xEE, 0xC9, 0xD4,
  0x6F, 0x72, 0x55, 0x48, 0x1B, 0x06, 0x21, 0x3C,
  0x4A, 0x57, 0x70, 0x6D, 0x3E, 0x23, 0x04, 0x19,
  0xA2, 0xBF, 0x98, 0x85, 0xD6, 0xCB, 0xEC, 0xF1,
  0x13, 0x0E, 0x29, 0x34, 0x67, 0x7A, 0x5D, 0x40,
  0xFB, 0xE6, 0xC1, 0xDC, 0x8F, 0x92, 0xB5, 0xA8,
  0xDE, 0xC3, 0xE4, 0xF9, 0xAA, 0xB7, 0x90, 0x8D,
  0x36, 0x2B, 0x0C, 0x11, 0x42, 0x5F, 0x78, 0x65,
  0x94, 0x89, 0xAE, 0xB3, 0xE0, 0xFD, 0xDA, 0xC7,
  0x7C, 0x61, 0x46, 0x5B, 0x08, 0x15, 0x32, 0x2F,
  0x59, 0x44, 0x63, 0x7E, 0x2D, 0x30, 0x17, 0x0A,
  0xB1, 0xAC, 0x8B, 0x96, 0xC5, 0xD8, 0xFF, 0xE2,
  0x26, 0x3B, 0x1C, 0x01, 0x52, 0x4F, 0x68, 0x75,
  0xCE, 0xD3, 0xF4, 0xE9, 0xBA, 0xA7, 0x80, 0x9D,
  0xEB, 0xF6, 0xD1, 0xCC, 0x9F, 0x82, 0xA5, 0xB8,
  0x03, 0x1E, 0x39, 0x24, 0x77, 0x6A, 0x4D, 0x50,
  0xA1, 0xBC, 0x9B, 0x86, 0xD5, 0xC8, 0xEF, 0xF2,
  0x49, 0x54, 0x73, 0x6E, 0x3D, 0x20, 0x07, 0x1A,
  0x6C, 0x71, 0x56, 0x4B, 0x18, 0x05, 0x22, 0x3F,
  0x84, 0x99, 0xBE, 0xA3, 0xF0, 0xED, 0xCA, 0xD7,
  0x35, 0x28, 0x0F, 0x12, 0x41, 0x5C, 0x7B, 0x66,
  0xDD, 0xC0, 0xE7, 0xFA, 0xA9, 0xB4, 0x93, 0x8E,
  0xF8, 0xE5, 0xC2, 0xDF, 0x8C, 0x91, 0xB6, 0xAB,
  0x10, 0x0D, 0x2A, 0x37, 0x64, 0x79, 0x5E, 0x43,
  0xB2, 0xAF, 0x88, 0x95, 0xC6, 0xDB, 0xFC, 0xE1,
  0x5A, 0x47, 0x60, 0x7D, 0x2E, 0x33, 0x14, 0x09,
  0x7F, 0x62, 0x45, 0x58, 0x0B, 0x16, 0x31, 0x2C,
  0x97, 0x8A, 0xAD, 0xB0, 0xE3, 0xFE, 0xD9, 0xC4
]

/-- One step of the table-driven CRC loop: `crc = table[crc ^ data[i]]`. -/
def E2E_P01_CRC8Step (crc b : Nat) : Nat :=
  E2E_P01_CRC8_Table.getD ((crc ^^^ b) % 256) 0

/-- `E2E_P01_CalculateCRC8`: CRC-8 over a byte list, with start value and
first-call flag, XOR-out 0xFF (the NULL-pointer guard path is not modelled:
byte lists always exist). -/
def E2E_P01_CalculateCRC8 (data : List Nat) (startValue : Nat) (isFirstCall : Bool) : Nat :=
  let crc0 := if isFirstCall then 0xFF else startValue
  (data.foldl E2E_P01_CRC8Step crc0) ^^^ 0xFF

/-- `E2E_P01_IncrementCounter`: increment with wrap above `E2E_P01_COUNTER_MAX` (14). -/
def E2E_P01_IncrementCounter (counter : Nat) : Nat :=
  if counter + 1 > 14 then 0 else counter + 1

/-- `E2E_P01_DeltaCounter`: signed delta between received and last-valid counter,
with the source's wrap-around formula `E2E_P01_COUNTER_WRAP (15) - last + received + 1`. -/
def E2E_P01_DeltaCounter (receivedCounter lastValidCounter : Nat) : Int :=
  if receivedCounter >= lastValidCounter then
    (receivedCounter : Int) - (lastValidCounter : Int)
  else
    15 - (lastValidCounter : Int) + (receivedCounter : Int) + 1

/-- `E2E_P01_GetCounter`: low nibble of the byte at `CounterOffset / 8`. -/
def E2E_P01_GetCounter (data : List Nat) (config : E2E_P01ConfigType) : Nat :=
  (data.getD (config.CounterOffset / 8) 0) % 16

/-- `E2E_P01_SetCounter`: keep the high nibble, set the low nibble of the
byte at `CounterOffset / 8` to the counter. -/
def E2E_P01_SetCounter (data : List Nat) (config : E2E_P01ConfigType) (counter : Nat) : List Nat :=
  let off := config.CounterOffset / 8
  data.set off ((data.getD off 0 / 16 * 16) + counter % 16)

/-- `E2E_P01_GetCRC`: the byte at `CRCOffset / 8`. -/
def E2E_P01_GetCRC (data : List Nat) (config : E2E_P01ConfigType) : Nat :=
  data.getD (config.CRCOffset / 8) 0

/-- `E2E_P01_SetCRC`: overwrite the byte at `CRCOffset / 8`. -/
def E2E_P01_SetCRC (data : List Nat) (config : E2E_P01ConfigType) (crc : Nat) : List Nat :=
  data.set (config.CRCOffset / 8) crc

/-- The CRC computation block shared verbatim by `E2E_P01Protect` and
`E2E_P01Check` (lines 272-287 and 358-373): CRC over the two DataID bytes
(big-endian) followed by the data bytes, skipping the CRC byte. -/
def E2E_P01_ComputeCRC (config : E2E_P01ConfigType) (data : List Nat) : Nat :=
  let crcByteOffset := config.CRCOffset / 8
  let dataIdBytes := [(config.DataID / 256) % 256, config.DataID % 256]
  let crc := E2E_P01_CalculateCRC8 dataIdBytes 0 true
  let crc := if 0 < crcByteOffset then
               E2E_P01_CalculateCRC8 (data.take crcByteOffset) crc false
             else crc
  if crcByteOffset < data.length - 1 then
    E2E_P01_CalculateCRC8 (data.drop (crcByteOffset + 1)) crc false
  else crc

/-- `E2E_P01ProtectInit`: counter starts at 0. -/
def E2E_P01ProtectInit : E2E_P01ProtectStateType := { Counter := 0 }

/-- `E2E_P01Protect`: set counter, compute and set CRC, increment counter.
Returns `none` exactly on the `length == 0` guard (`E_NOT_OK`). -/
def E2E_P01Protect (config : E2E_P01ConfigType) (state : E2E_P01ProtectStateType)
    (data : List Nat) : Option (E2E_P01ProtectStateType × List Nat) :=
  if data.length = 0 then none
  else
    let data1 := E2E_P01_SetCounter data config state.Counter
    let crc := E2E_P01_ComputeCRC config data1
    let data2 := E2E_P01_SetCRC data1 config crc
    some ({ Counter := E2E_P01_IncrementCounter state.Counter }, data2)

/-- `E2E_P01CheckInit`: fresh receiver state. -/
def E2E_P01CheckInit : E2E_P01CheckStateType :=
  { LastValidCounter := 0
    MaxDeltaCounter := 1
    WaitForFirstData := true
    NewDataAvailable := false
    LostData := 0
    Status := .initial
    NoNewOrRepeatedDataCounter := 0
    SyncCounter := 0 }

/-- `E2E_P01Check`: verify CRC and counter of a received frame.  An empty
list models the `data == NULL || length == 0` no-new-data path.  Returns the
updated state and the returned status (always equal to the stored `Status`). -/
def E2E_P01Check (config : E2E_P01ConfigType) (state : E2E_P01CheckStateType)
    (data : List Nat) : E2E_P01CheckStateType × E2E_P01CheckStatusType :=
  if data.length = 0 then
    let c := wrap16 (state.NoNewOrRepeatedDataCounter + 1)
    let st := { state with NoNewOrRepeatedDataCounter := c }
    let st := if c >= config.MaxNoNewOrRepeatedData then
                { st with Status := .nonewdata }
              else st
    (st, st.Status)
  else
    let receivedCrc := E2E_P01_GetCRC data config
    let receivedCounter := E2E_P01_GetCounter data config
    let calculatedCrc := E2E_P01_ComputeCRC config data
    if receivedCrc ≠ calculatedCrc then
      ({ state with Status := .wrongcrc }, .wrongcrc)
    else
      let st := { state with NoNewOrRepeatedDataCounter := 0 }
      if st.WaitForFirstData then
        ({ st with WaitForFirstData := false
                   LastValidCounter := receivedCounter
                   Status := .initial }, .initial)
      else
        let deltaCounter := E2E_P01_DeltaCounter receivedCounter st.LastValidCounter
        if deltaCounter = 0 then
          ({ st with Status := .repeated }, .repeated)
        else if deltaCounter = 1 then
          ({ st with LastValidCounter := receivedCounter, Status := .ok }, .ok)
        else if 1 < deltaCounter ∧ deltaCounter <= (config.MaxDeltaCounter : Int) then
          ({ st with LostData := wrap16 (st.LostData + (deltaCounter - 1).toNat)
                     LastValidCounter := receivedCounter
                     Status := .okSomeLost }, .okSomeLost)
        else
          ({ st with Status := .wrongSequence }, .wrongSequence)

/-- `E2E_SMConfigType`: supervisor state-machine configuration. -/
structure E2E_SMConfigType where
  WindowSize : Nat
  MinOkStateInit : Nat
  MaxErrorStateInit : Nat
  MinOkStateValid : Nat
  MinOkStateInvalid : Nat
  MaxErrorStateValid : Nat
  MaxErrorStateInvalid : Nat
deriving DecidableEq

/-- `E2E_SMCheckStateType`: supervisor counters plus state tag. -/
structure E2E_SMCheckStateType where
  OkCount : Nat
  ErrorCount : Nat
  SMState : E2E_SMStateType
deriving DecidableEq

/-- `E2E_SMCheckInit`: counters cleared, state `DEINIT`. -/
def E2E_SMCheckInit : E2E_SMCheckStateType :=
  { OkCount := 0, ErrorCount := 0, SMState := .deinit }

/-- The counter-update block of `E2E_SMCheck` (lines 451-469): OK-like
statuses bump `OkCount` (saturating at 0xFF) and clear `ErrorCount`;
every other status bumps `ErrorCount` (saturating) and clears `OkCount`
unless the status is `REPEATED`. -/
def E2E_SMUpdateCounters (state : E2E_SMCheckStateType)
    (profileStatus : E2E_P01CheckStatusType) : E2E_SMCheckStateType :=
  let isOk := profileStatus = .ok ∨ profileStatus = .okSomeLost ∨ profileStatus = .initial
  if isOk then
    let st := if state.OkCount < 0xFF then { state with OkCount := state.OkCount + 1 } else state
    { st with ErrorCount := 0 }
  else
    let st := if state.ErrorCount < 0xFF then { state with ErrorCount := state.ErrorCount + 1 } else state
    if profileStatus ≠ .repeated then { st with OkCount := 0 } else st

/-- The transition block of `E2E_SMCheck` (lines 471-514). -/
def E2E_SMTransition (config : E2E_SMConfigType) (state : E2E_SMCheckStateType)
    (profileStatus : E2E_P01CheckStatusType) : E2E_SMCheckStateType :=
  match state.SMState with
  | .deinit => { state with SMState := .nodata }
  | .nodata =>
      if profileStatus ≠ .nonewdata then { state with SMState := .init } else state
  | .init =>
      if state.OkCount >= config.MinOkStateInit then
        { state with SMState := .valid, OkCount := 0, ErrorCount := 0 }
      else if state.ErrorCount >= config.MaxErrorStateInit then
        { state with SMState := .invalid, OkCount := 0, ErrorCount := 0 }
      else state
  | .valid =>
      if state.ErrorCount >= config.MaxErrorStateValid then
        { state with SMState := .invalid, OkCount := 0, ErrorCount := 0 }
      else state
  | .invalid =>
      if state.OkCount >= config.MinOkStateInvalid then
        { state with SMState := .valid, OkCount := 0, ErrorCount := 0 }
      else state

/-- `E2E_SMCheck`: counter update followed by the state-machine transition;
the C function returns the new `SMState`. -/
def E2E_SMCheck (config : E2E_SMConfigType) (state : E2E_SMCheckStateType)
    (profileStatus : E2E_P01CheckStatusType) : E2E_SMCheckStateType :=
  E2E_SMTransition config (E2E_SMUpdateCounters state profileStatus) profileStatus

/-! ## SwitchEvent component (`SwitchEvent.cpp`) -/

/-- The E2E configuration installed by `SwitchEvent_InitE2E` from the
`FLM_Config.h` constants for the light-switch message. -/
def SwitchEvent_E2EConfig : E2E_P01ConfigType :=
  { DataLength := 32
    DataID := 0x0100
    MaxDeltaCounter := 2
    MaxNoNewOrRepeatedData := 5
    SyncCounter := 2
    CounterOffset := 8
    CRCOffset := 0
    DataIDNibbleOffset := 0
    DataIDMode := false }

/-- The supervisor configuration installed by `SwitchEvent_InitE2E`. -/
def SwitchEvent_SMConfig : E2E_SMConfigType :=
  { WindowSize := 5
    MinOkStateInit := 2
    MaxErrorStateInit := 2
    MinOkStateValid := 2
    MinOkStateInvalid := 3
    MaxErrorStateValid := 2
    MaxErrorStateInvalid := 3 }

/-- The `static_cast<LightSwitchCmd>` of a byte, used only on range-checked
values (0..3) by `SwitchEvent_ExtractLightSwitchCommand`. -/
def LightSwitchCmd.ofByte : Nat -> LightSwitchCmd
  | 0 => .off | 1 => .lowBeam | 2 => .highBeam | _ => .auto

/-- `SwitchEvent_IsCommandValid`: valid commands are 0..3 (`LIGHT_SWITCH_AUTO`). -/
def SwitchEvent_IsCommandValid (command : Nat) : Bool := command <= 3

/-- `SwitchEvent_StateType` (from `SwitchEvent.h`). -/
structure SwitchEvent_StateType where
  isInitialized : Bool
  e2eConfig : E2E_P01ConfigType
  e2eCheckState : E2E_P01CheckStateType
  e2eSmState : E2E_SMCheckStateType
  e2eSmConfig : E2E_SMConfigType
  lightSwitchStatus : LightSwitchStatus
  e2eStatus : E2E_P01CheckStatusType
  e2eSmStatus : E2E_SMStateType
  timeoutCounter : Nat
  e2eTimeoutCounter : Nat
  lastValidTimestamp : Nat
  currentTimestamp : Nat
  consecutiveE2EErrors : Nat
  consecutiveTimeouts : Nat
  e2eFailureActive : Bool
  timeoutActive : Bool
  lastMessageData : List Nat
  newMessageReceived : Bool
deriving DecidableEq

/-- Module statics of `SwitchEvent.cpp`: the state record plus the
`SwitchEvent_SystemTime` counter. -/
structure SwitchEvent_Module where
  st : SwitchEvent_StateType
  systemTime : Nat
deriving DecidableEq

/-- `SwitchEvent_Init`: zeroed state, E2E and supervisor states initialised,
marked initialised.  `memset` zero is the enum value 0 / empty buffer. -/
def SwitchEvent_Init : SwitchEvent_StateType :=
  { isInitialized := true
    e2eConfig := SwitchEvent_E2EConfig
    e2eCheckState := E2E_P01CheckInit
    e2eSmState := E2E_SMCheckInit
    e2eSmConfig := SwitchEvent_SMConfig
    lightSwitchStatus := { command := .off, isValid := false, e2eStatus := 0 }
    e2eStatus := .ok
    e2eSmStatus := .valid
    timeoutCounter := 0
    e2eTimeoutCounter := 0
    lastValidTimestamp := 0
    currentTimestamp := 0
    consecutiveE2EErrors := 0
    consecutiveTimeouts := 0
    e2eFailureActive := false
    timeoutActive := false
    lastMessageData := [0, 0, 0, 0]
    newMessageReceived := false }

/-- `SwitchEvent_ProcessCanMessage`: buffer a 4-byte frame and raise the
new-message flag; other lengths are rejected. -/
def SwitchEvent_ProcessCanMessage (st : SwitchEvent_StateType) (data : List Nat) :
    SwitchEvent_StateType :=
  if data.length ≠ 4 then st
  else { st with lastMessageData := data, newMessageReceived := true }

/-- `SwitchEvent_ExtractLightSwitchCommand`: byte 2 (`COM_LIGHTSWITCH_CMD_BYTE`)
is the command; in range it replaces the stored command, out of range it
only clears the validity flag. -/
def SwitchEvent_ExtractLightSwitchCommand (st : SwitchEvent_StateType) (data : List Nat) :
    SwitchEvent_StateType :=
  let command := data.getD 2 0
  if SwitchEvent_IsCommandValid command then
    { st with lightSwitchStatus :=
        { st.lightSwitchStatus with command := LightSwitchCmd.ofByte command } }
  else
    { st with lightSwitchStatus := { st.lightSwitchStatus with isValid := false } }

/-- `SwitchEvent_PerformE2ECheck`: run the profile check and the supervisor
on the pending frame (or on no data), then process the result. -/
def SwitchEvent_PerformE2ECheck (st : SwitchEvent_StateType) : SwitchEvent_StateType :=
  if st.newMessageReceived then
    let pr := E2E_P01Check st.e2eConfig st.e2eCheckState st.lastMessageData
    let status := pr.2
    let sm := E2E_SMCheck st.e2eSmConfig st.e2eSmState status
    let st := { st with e2eCheckState := pr.1, e2eStatus := status
                        e2eSmState := sm, e2eSmStatus := sm.SMState }
    let st :=
      if status = .ok ∨ status = .okSomeLost ∨ status = .initial then
        let st := SwitchEvent_ExtractLightSwitchCommand st st.lastMessageData
        { st with consecutiveE2EErrors := 0
                  lastValidTimestamp := st.currentTimestamp
                  timeoutCounter := 0
                  e2eFailureActive := false }
      else
        let st := { st with consecutiveE2EErrors := wrap8 (st.consecutiveE2EErrors + 1) }
        if st.consecutiveE2EErrors >= 5 then
          { st with e2eFailureActive := true
                    lightSwitchStatus := { st.lightSwitchStatus with isValid := false } }
        else st
    { st with newMessageReceived := false }
  else
    let pr := E2E_P01Check st.e2eConfig st.e2eCheckState []
    let sm := E2E_SMCheck st.e2eSmConfig st.e2eSmState pr.2
    { st with e2eCheckState := pr.1, e2eStatus := pr.2
              e2eSmState := sm, e2eSmStatus := sm.SMState }

/-- `SwitchEvent_UpdateTimeoutStatus`: frame timeout counter
(`SWITCHEVENT_TIMEOUT_CYCLES` = 5) and the E2E supervisor timeout counter
(`SWITCHEVENT_E2E_TIMEOUT_CYCLES` = 10). -/
def SwitchEvent_UpdateTimeoutStatus (st : SwitchEvent_StateType) : SwitchEvent_StateType :=
  let st := if !st.newMessageReceived then
              { st with timeoutCounter := wrap16 (st.timeoutCounter + 1) }
            else st
  let st :=
    if st.timeoutCounter >= 5 then
      { st with timeoutActive := true
                consecutiveTimeouts := wrap8 (st.consecutiveTimeouts + 1)
                lightSwitchStatus := { st.lightSwitchStatus with isValid := false } }
    else
      { st with timeoutActive := false, consecutiveTimeouts := 0 }
  if st.e2eSmStatus ≠ .valid then
    let st := { st with e2eTimeoutCounter := wrap16 (st.e2eTimeoutCounter + 1) }
    if st.e2eTimeoutCounter >= 10 then { st with e2eFailureActive := true } else st
  else
    { st with e2eTimeoutCounter := 0 }

/-- The overall-validity decision of `SwitchEvent_MainFunction` (lines
133-142): valid iff the supervisor is Valid and no frame timeout is
active. -/
def SwitchEvent_DecideValidity (st : SwitchEvent_StateType) : SwitchEvent_StateType :=
  if st.e2eSmStatus = .valid then
    if !st.timeoutActive then
      { st with lightSwitchStatus := { st.lightSwitchStatus with isValid := true } }
    else
      { st with lightSwitchStatus := { st.lightSwitchStatus with isValid := false } }
  else
    { st with lightSwitchStatus := { st.lightSwitchStatus with isValid := false } }

/-- The E2E status byte publication of `SwitchEvent_MainFunction`
(lines 144-146). -/
def SwitchEvent_PublishE2EByte (st : SwitchEvent_StateType) : SwitchEvent_StateType :=
  { st with lightSwitchStatus :=
      { st.lightSwitchStatus with e2eStatus := st.e2eStatus.toByte } }

/-- `SwitchEvent_MainFunction`: timestamp update, E2E check, timeout update,
overall validity decision, E2E status byte publication. -/
def SwitchEvent_MainFunction (m : SwitchEvent_Module) : SwitchEvent_Module :=
  if !m.st.isInitialized then m
  else
    { st := SwitchEvent_PublishE2EByte
              (SwitchEvent_DecideValidity
                (SwitchEvent_UpdateTimeoutStatus
                  (SwitchEvent_PerformE2ECheck
                    { m.st with currentTimestamp := m.systemTime })))
      systemTime := wrap32 (m.systemTime + 10) }

/-! ## LightRequest component (`LightRequest.cpp`)

The ADC buffer is declared with 8 slots but only the first
`FLM_ADC_SAMPLES` (4) are ever written (index is taken modulo 4) or read
(the average runs over `adcSampleCount <= 4` leading entries), so it is
modelled as a 4-slot list. -/

/-- `LightRequest_StateType` (from `LightRequest.h`). -/
structure LightRequest_StateType where
  isInitialized : Bool
  adcBuffer : List Nat
  adcBufferIndex : Nat
  adcSampleCount : Nat
  adcFilteredValue : Nat
  adcRawValue : Nat
  previousFilteredValue : Nat
  rateOfChange : Nat
  rateCheckCounter : Nat
  ambientLight : AmbientLightLevel
  signalStatus : SignalStatus
  plausibilityErrorCount : Nat
  plausibilityFault : Bool
  currentTimestamp : Nat
deriving DecidableEq

/-- Module statics of `LightRequest.cpp`: state plus `LightRequest_SystemTime`. -/
structure LightRequest_Module where
  st : LightRequest_StateType
  systemTime : Nat
deriving DecidableEq

/-- `LightRequest_Init`. -/
def LightRequest_Init : LightRequest_StateType :=
  { isInitialized := true
    adcBuffer := [0, 0, 0, 0]
    adcBufferIndex := 0
    adcSampleCount := 0
    adcFilteredValue := 0
    adcRawValue := 0
    previousFilteredValue := 0
    rateOfChange := 0
    rateCheckCounter := 0
    ambientLight := { adcValue := 0, luxValue := 0, isValid := false }
    signalStatus := .invalid
    plausibilityErrorCount := 0
    plausibilityFault := false
    currentTimestamp := 0 }

/-- `LightRequest_ReadAdc` on the simulated-value path: store the injected
raw sample. -/
def LightRequest_ReadAdc (st : LightRequest_StateType) (raw : Nat) : LightRequest_StateType :=
  { st with adcRawValue := raw }

/-- `LightRequest_ApplyFilter`: insert into the circular buffer (capacity
`FLM_ADC_SAMPLES` = 4), advance the index, count samples up to 4, and set
the filtered value to the integer mean of the populated entries. -/
def LightRequest_ApplyFilter (st : LightRequest_StateType) : LightRequest_StateType :=
  let buf := st.adcBuffer.set st.adcBufferIndex st.adcRawValue
  let idx := (st.adcBufferIndex + 1) % 4
  let count := if st.adcSampleCount < 4 then st.adcSampleCount + 1 else st.adcSampleCount
  let sum := (buf.take count).sum
  { st with adcBuffer := buf
            adcBufferIndex := idx
            adcSampleCount := count
            adcFilteredValue := sum / count }

/-- `LightRequest_CheckOpenCircuit`: filtered < `FLM_AMBIENT_OPEN_CIRCUIT`
(100) latches `OpenCircuit` and invalidates. -/
def LightRequest_CheckOpenCircuit (st : LightRequest_StateType) : LightRequest_StateType :=
  if st.adcFilteredValue < 100 then
    { st with signalStatus := .openCircuit
              ambientLight := { st.ambientLight with isValid := false } }
  else st

/-- `LightRequest_CheckShortCircuit`: filtered > `FLM_AMBIENT_SHORT_CIRCUIT`
(3995) latches `ShortCircuit` and invalidates. -/
def LightRequest_CheckShortCircuit (st : LightRequest_StateType) : LightRequest_StateType :=
  if st.adcFilteredValue > 3995 then
    { st with signalStatus := .shortCircuit
              ambientLight := { st.ambientLight with isValid := false } }
  else st

/-- `LightRequest_CheckPlausibility`: every `LIGHTREQUEST_RATE_CHECK_CYCLES`
(5) ticks compare the filtered value against the previous check value;
above `FLM_AMBIENT_RATE_LIMIT` (500) debounce up to
`LIGHTREQUEST_PLAUSIBILITY_DEBOUNCE` (3) and then raise the fault. -/
def LightRequest_CheckPlausibility (st : LightRequest_StateType) : LightRequest_StateType :=
  let st := { st with rateCheckCounter := wrap8 (st.rateCheckCounter + 1) }
  if st.rateCheckCounter >= 5 then
    let st := { st with rateCheckCounter := 0 }
    let delta := Int.natAbs ((st.adcFilteredValue : Int) - (st.previousFilteredValue : Int))
    let st := { st with rateOfChange := delta }
    let st :=
      if st.rateOfChange > 500 then
        let st := if st.plausibilityErrorCount < 3 then
                    { st with plausibilityErrorCount := st.plausibilityErrorCount + 1 }
                  else st
        if st.plausibilityErrorCount >= 3 then
          { st with plausibilityFault := true
                    signalStatus := .plausibility
                    ambientLight := { st.ambientLight with isValid := false } }
        else st
      else
        { st with plausibilityErrorCount := 0, plausibilityFault := false }
    { st with previousFilteredValue := st.adcFilteredValue }
  else st

/-- `LightRequest_UpdateOutput`: if no fault status is pending and the
buffer holds `FLM_ADC_SAMPLES` (4) samples, publish `Valid`; copy the
filtered value and its lux conversion (`adc / 4`) into the output. -/
def LightRequest_UpdateOutput (st : LightRequest_StateType) : LightRequest_StateType :=
  let st :=
    if st.signalStatus ≠ .openCircuit ∧ st.signalStatus ≠ .shortCircuit ∧
       st.signalStatus ≠ .plausibility then
      if st.adcSampleCount >= 4 then
        { st with signalStatus := .valid
                  ambientLight := { st.ambientLight with isValid := true } }
      else
        { st with signalStatus := .invalid
                  ambientLight := { st.ambientLight with isValid := false } }
    else st
  { st with ambientLight :=
      { st.ambientLight with adcValue := st.adcFilteredValue
                             luxValue := st.adcFilteredValue / 4 } }

/-- The check chain of `LightRequest_MainFunction` before the output update:
read ADC, filter, open-circuit, short-circuit, plausibility. -/
def LightRequest_ProcessChecks (st : LightRequest_StateType) (raw : Nat) :
    LightRequest_StateType :=
  LightRequest_CheckPlausibility
    (LightRequest_CheckShortCircuit
      (LightRequest_CheckOpenCircuit
        (LightRequest_ApplyFilter (LightRequest_ReadAdc st raw))))

/-- `LightRequest_MainFunction` with the injected ADC value as input. -/
def LightRequest_MainFunction (m : LightRequest_Module) (raw : Nat) : LightRequest_Module :=
  if !m.st.isInitialized then m
  else
    { st := LightRequest_UpdateOutput
              (LightRequest_ProcessChecks { m.st with currentTimestamp := m.systemTime } raw)
      systemTime := wrap32 (m.systemTime + 20) }

/-- Run `LightRequest_MainFunction` over a list of injected raw samples. -/
def LightRequest_Run (m : LightRequest_Module) (raws : List Nat) : LightRequest_Module :=
  raws.foldl LightRequest_MainFunction m

/-! ## FLM Application component (`FLM_Application.cpp`) -/

/-- `FLM_Application_StateType` (from `FLM_Application.h`). -/
structure FLM_Application_StateType where
  isInitialized : Bool
  currentState : FLM_StateType
  previousState : FLM_StateType
  stateEntryTime : Nat
  lightSwitch : LightSwitchStatus
  ambientLight : AmbientLightLevel
  switchSignalStatus : SignalStatus
  ambientSignalStatus : SignalStatus
  e2eStatus : Nat
  headlightCommand : HeadlightCommand
  lightsCurrentlyOn : Bool
  hysteresisActive : Bool
  consecutiveErrors : Nat
  e2eErrorStartTime : Nat
  e2eTimeoutActive : Bool
  degradedEntryTime : Nat
  currentTime : Nat
deriving DecidableEq

/-- Module statics of `FLM_Application.cpp`: the state record,
`FLM_SystemTime`, `FLM_ExternalSafeStateTrigger` and `FLM_SafeStateReason`. -/
structure FLM_Module where
  st : FLM_Application_StateType
  systemTime : Nat
  externalSafeStateTrigger : Bool
  safeStateReason : SafeStateReason
deriving DecidableEq

/-- Inputs sampled by `FLM_ReadInputs` from the SwitchEvent and LightRequest
components at the start of a tick. -/
structure FLM_Inputs where
  lightSwitch : LightSwitchStatus
  e2eStatus : Nat
  switchTimeoutActive : Bool
  ambientLight : AmbientLightLevel
  ambientSignalStatus : SignalStatus
deriving DecidableEq

/-- `FLM_Init`: state record cleared and re-seeded, external trigger and
reason reset; `FLM_SystemTime` is NOT reset by `FLM_Init`. -/
def FLM_Init (m : FLM_Module) : FLM_Module :=
  { st :=
      { isInitialized := true
        currentState := .init
        previousState := .init
        stateEntryTime := 0
        lightSwitch := { command := .off, isValid := false, e2eStatus := 0 }
        ambientLight := { adcValue := 0, luxValue := 0, isValid := false }
        switchSignalStatus := .invalid
        ambientSignalStatus := .invalid
        e2eStatus := 0
        headlightCommand := .off
        lightsCurrentlyOn := false
        hysteresisActive := false
        consecutiveErrors := 0
        e2eErrorStartTime := 0
        e2eTimeoutActive := false
        degradedEntryTime := 0
        currentTime := 0 }
    systemTime := m.systemTime
    externalSafeStateTrigger := false
    safeStateReason := .none }

/-- `FLM_AreAllInputsValid`. -/
def FLM_AreAllInputsValid (st : FLM_Application_StateType) : Bool :=
  st.lightSwitch.isValid && st.ambientLight.isValid

/-- `FLM_IsAnyInputInvalid`. -/
def FLM_IsAnyInputInvalid (st : FLM_Application_StateType) : Bool :=
  !st.lightSwitch.isValid || !st.ambientLight.isValid

/-- `FLM_IsCriticalFault`: E2E timeout active or the external trigger raised. -/
def FLM_IsCriticalFault (st : FLM_Application_StateType) (trigger : Bool) : Bool :=
  st.e2eTimeoutActive || trigger

/-- `FLM_ReadInputs`: sample the switch report, its E2E status, the derived
switch signal status, and the ambient reading. -/
def FLM_ReadInputs (st : FLM_Application_StateType) (inp : FLM_Inputs) :
    FLM_Application_StateType :=
  { st with lightSwitch := inp.lightSwitch
            e2eStatus := inp.e2eStatus
            switchSignalStatus :=
              if inp.lightSwitch.isValid then .valid
              else if inp.switchTimeoutActive then .timeout
              else .invalid
            ambientLight := inp.ambientLight
            ambientSignalStatus := inp.ambientSignalStatus }

/-- `FLM_StateInit`: external trigger forces Safe; all inputs valid move to
Normal; command defaults to Off. -/
def FLM_StateInit (st : FLM_Application_StateType) (trigger : Bool) :
    FLM_Application_StateType :=
  if trigger then { st with currentState := .safe }
  else
    let st := if FLM_AreAllInputsValid st then
                { st with currentState := .normal, consecutiveErrors := 0 }
              else st
    { st with headlightCommand := .off }

/-- `FLM_StateNormal`: external trigger or critical fault force Safe; an
invalid input debounces over `FLM_MAX_CONSECUTIVE_ERRORS` (3) ticks into
Degraded. -/
def FLM_StateNormal (st : FLM_Application_StateType) (trigger : Bool) :
    FLM_Application_StateType :=
  if trigger then { st with currentState := .safe }
  else if FLM_IsCriticalFault st trigger then { st with currentState := .safe }
  else if FLM_IsAnyInputInvalid st then
    let st := { st with consecutiveErrors := wrap8 (st.consecutiveErrors + 1) }
    if st.consecutiveErrors >= 3 then
      { st with currentState := .degraded, degradedEntryTime := st.currentTime }
    else st
  else { st with consecutiveErrors := 0 }

/-- `FLM_StateDegraded`: trigger/critical fault force Safe; recovery returns
to Normal; staying longer than `FLM_FTTI_MS - FLM_SAFE_STATE_TRANSITION_MS`
(100 ms, strict greater-than) forces Safe. -/
def FLM_StateDegraded (st : FLM_Application_StateType) (trigger : Bool) :
    FLM_Application_StateType :=
  if trigger then { st with currentState := .safe }
  else if FLM_AreAllInputsValid st then
    { st with currentState := .normal, consecutiveErrors := 0 }
  else if FLM_IsCriticalFault st trigger then { st with currentState := .safe }
  else if sub32 st.currentTime st.degradedEntryTime > 100 then
    { st with currentState := .safe }
  else st

/-- `FLM_StateSafe`: no exit; the headlight command follows the ambient
reading (valid and dark -> LowBeam, valid and bright -> Off, invalid ->
LowBeam). -/
def FLM_StateSafe (st : FLM_Application_StateType) : FLM_Application_StateType :=
  if st.ambientLight.isValid then
    if st.ambientLight.adcValue < 800 then
      { st with headlightCommand := .lowBeam }
    else
      { st with headlightCommand := .off }
  else
    { st with headlightCommand := .lowBeam }

/-- `FLM_ProcessStateMachine`: dispatch on the current state, then stamp the
entry time on a state change. -/
def FLM_ProcessStateMachine (st : FLM_Application_StateType) (trigger : Bool) :
    FLM_Application_StateType :=
  let st := { st with previousState := st.currentState }
  let st :=
    match st.currentState with
    | .init => FLM_StateInit st trigger
    | .normal => FLM_StateNormal st trigger
    | .degraded => FLM_StateDegraded st trigger
    | .safe => FLM_StateSafe st
  if st.currentState ≠ st.previousState then
    { st with stateEntryTime := st.currentTime }
  else st

/-- `FLM_ApplyAutoMode`: hysteresis between `FLM_AMBIENT_THRESHOLD_ON` (800)
and `FLM_AMBIENT_THRESHOLD_OFF` (1000); invalid ambient keeps the current
command. -/
def FLM_ApplyAutoMode (st : FLM_Application_StateType) : FLM_Application_StateType :=
  if !st.ambientLight.isValid then st
  else if st.lightsCurrentlyOn then
    if st.ambientLight.adcValue > 1000 then
      { st with headlightCommand := .off, lightsCurrentlyOn := false, hysteresisActive := false }
    else
      { st with headlightCommand := .lowBeam, hysteresisActive := true }
  else
    if st.ambientLight.adcValue < 800 then
      { st with headlightCommand := .lowBeam, lightsCurrentlyOn := true, hysteresisActive := true }
    else
      { st with headlightCommand := .off, hysteresisActive := false }

/-- `FLM_DetermineHeadlightCommand`: Safe keeps what `FLM_StateSafe` chose,
Init forces Off, Normal/Degraded map the switch command (Auto and the
Degraded-with-invalid-switch case use Auto mode). -/
def FLM_DetermineHeadlightCommand (st : FLM_Application_StateType) :
    FLM_Application_StateType :=
  if st.currentState = .safe then st
  else if st.currentState = .init then { st with headlightCommand := .off }
  else
    let st :=
      match st.lightSwitch.command with
      | .off => { st with headlightCommand := .off, lightsCurrentlyOn := false }
      | .lowBeam => { st with headlightCommand := .lowBeam, lightsCurrentlyOn := true }
      | .highBeam => { st with headlightCommand := .highBeam, lightsCurrentlyOn := true }
      | .auto => FLM_ApplyAutoMode st
    if st.currentState = .degraded ∧ !st.lightSwitch.isValid then
      FLM_ApplyAutoMode st
    else st

/-- `FLM_MainFunction`: guard on initialisation, advance the timestamp,
read inputs, run the state machine, determine the headlight command. -/
def FLM_MainFunction (m : FLM_Module) (inp : FLM_Inputs) : FLM_Module :=
  if !m.st.isInitialized then m
  else
    let st := { m.st with currentTime := m.systemTime }
    let sysTime := wrap32 (m.systemTime + 10)
    let st := FLM_ReadInputs st inp
    let st := FLM_ProcessStateMachine st m.externalSafeStateTrigger
    let st := FLM_DetermineHeadlightCommand st
    { m with st := st, systemTime := sysTime }

/-- `FLM_TriggerSafeState`: raise the external trigger and store the reason. -/
def FLM_TriggerSafeState (m : FLM_Module) (reason : SafeStateReason) : FLM_Module :=
  { m with externalSafeStateTrigger := true, safeStateReason := reason }

/-- Run `FLM_MainFunction` over a list of tick inputs. -/
def FLM_Run (m : FLM_Module) (inps : List FLM_Inputs) : FLM_Module :=
  inps.foldl FLM_MainFunction m

/-! ## Headlight component (`Headlight.cpp`) -/

/-- `Headlight_StateType` (from `Headlight.h`). -/
structure Headlight_StateType where
  isInitialized : Bool
  currentCommand : HeadlightCommand
  requestedCommand : HeadlightCommand
  lowBeamOutput : Bool
  highBeamOutput : Bool
  feedbackCurrent : Nat
  feedbackState : Bool
  faultStatus : HeadlightFaultStatus
  openLoadCounter : Nat
  shortCircuitCounter : Nat
  faultDetectStartTime : Nat
  faultConfirmed : Bool
  commandChangeTime : Nat
  currentTime : Nat
deriving DecidableEq

/-- Module statics of `Headlight.cpp`: the state record,
`Headlight_SystemTime`, and the two DIO output channels the component
writes (`HEADLIGHT_DIO_LOW_BEAM`, `HEADLIGHT_DIO_HIGH_BEAM`). -/
structure Headlight_Module where
  st : Headlight_StateType
  systemTime : Nat
  dioLowBeam : Bool
  dioHighBeam : Bool
deriving DecidableEq

/-- `Headlight_Init`: cleared state, outputs driven low. -/
def Headlight_Init (m : Headlight_Module) : Headlight_Module :=
  { st :=
      { isInitialized := true
        currentCommand := .off
        requestedCommand := .off
        lowBeamOutput := false
        highBeamOutput := false
        feedbackCurrent := 0
        feedbackState := false
        faultStatus := .none
        openLoadCounter := 0
        shortCircuitCounter := 0
        faultDetectStartTime := 0
        faultConfirmed := false
        commandChangeTime := 0
        currentTime := 0 }
    systemTime := m.systemTime
    dioLowBeam := false
    dioHighBeam := false }

/-- `Headlight_IsOutputCommanded`: any command other than Off. -/
def Headlight_IsOutputCommanded (st : Headlight_StateType) : Bool :=
  st.requestedCommand ≠ .off

/-- `Headlight_SetOutputs`: drive both lines per the requested command and
stamp the command-change time when the requested command differs from the
previous tick's command. -/
def Headlight_SetOutputs (m : Headlight_Module) : Headlight_Module :=
  let m :=
    match m.st.requestedCommand with
    | .off =>
        { m with st := { m.st with lowBeamOutput := false, highBeamOutput := false }
                 dioLowBeam := false, dioHighBeam := false }
    | .lowBeam =>
        { m with st := { m.st with lowBeamOutput := true, highBeamOutput := false }
                 dioLowBeam := true, dioHighBeam := false }
    | .highBeam =>
        { m with st := { m.st with lowBeamOutput := true, highBeamOutput := true }
                 dioLowBeam := true, dioHighBeam := true }
  if m.st.requestedCommand ≠ m.st.currentCommand then
    { m with st := { m.st with commandChangeTime := m.st.currentTime } }
  else m

/-- `Headlight_ReadFeedback` on the simulated-current path: store the
injected current (mA) and derive the on/off feedback state
(`FLM_HEADLIGHT_MIN_CURRENT_MA` = 100). -/
def Headlight_ReadFeedback (st : Headlight_StateType) (simCurrent : Nat) :
    Headlight_StateType :=
  { st with feedbackCurrent := simCurrent
            feedbackState := simCurrent >= 100 }

/-- `Headlight_CheckOpenLoad`: when commanded on and settled for
`FLM_HEADLIGHT_FAULT_DETECT_MS` (20 ms), current below
`FLM_HEADLIGHT_OPEN_LOAD_MA` (50) debounces over
`HEADLIGHT_FAULT_CONFIRM_CYCLES` (2) into a latched OpenLoad fault. -/
def Headlight_CheckOpenLoad (st : Headlight_StateType) : Headlight_StateType :=
  if !Headlight_IsOutputCommanded st then
    { st with openLoadCounter := 0 }
  else if sub32 st.currentTime st.commandChangeTime < 20 then st
  else if st.feedbackCurrent < 50 then
    let st := { st with openLoadCounter := wrap8 (st.openLoadCounter + 1) }
    if st.openLoadCounter >= 2 then
      { st with faultStatus := .openLoad, faultConfirmed := true }
    else st
  else
    { st with openLoadCounter := 0 }

/-- `Headlight_CheckShortCircuit`: current above
`FLM_HEADLIGHT_MAX_CURRENT_MA` (15000) debounces over
`HEADLIGHT_FAULT_CONFIRM_CYCLES` (2) into a latched Short fault, and on
the confirming tick both output lines are driven low. -/
def Headlight_CheckShortCircuit (m : Headlight_Module) : Headlight_Module :=
  if m.st.feedbackCurrent > 15000 then
    let m := { m with st := { m.st with shortCircuitCounter := wrap8 (m.st.shortCircuitCounter + 1) } }
    if m.st.shortCircuitCounter >= 2 then
      { m with st := { m.st with faultStatus := .short
                                 faultConfirmed := true
                                 lowBeamOutput := false
                                 highBeamOutput := false }
               dioLowBeam := false, dioHighBeam := false }
    else m
  else
    { m with st := { m.st with shortCircuitCounter := 0 } }

/-- `Headlight_UpdateFaultStatus`: with both debounce counters at zero and
no confirmed fault, clear the fault classification. -/
def Headlight_UpdateFaultStatus (st : Headlight_StateType) : Headlight_StateType :=
  if st.openLoadCounter = 0 ∧ st.shortCircuitCounter = 0 then
    if !st.faultConfirmed then { st with faultStatus := .none } else st
  else st

/-- The timestamp advance and command sampling at the top of
`Headlight_MainFunction` (lines 93-98). -/
def Headlight_TickEntry (m : Headlight_Module) (cmd : HeadlightCommand) : Headlight_Module :=
  { m with st := { m.st with currentTime := m.systemTime, requestedCommand := cmd }
           systemTime := wrap32 (m.systemTime + 10) }

/-- Lift `Headlight_ReadFeedback` to the module. -/
def Headlight_ApplyReadFeedback (m : Headlight_Module) (simCurrent : Nat) : Headlight_Module :=
  { m with st := Headlight_ReadFeedback m.st simCurrent }

/-- Lift `Headlight_CheckOpenLoad` to the module. -/
def Headlight_ApplyCheckOpenLoad (m : Headlight_Module) : Headlight_Module :=
  { m with st := Headlight_CheckOpenLoad m.st }

/-- Lift `Headlight_UpdateFaultStatus` to the module. -/
def Headlight_ApplyUpdateFaultStatus (m : Headlight_Module) : Headlight_Module :=
  { m with st := Headlight_UpdateFaultStatus m.st }

/-- The final `currentCommand := requestedCommand` assignment (line 119). -/
def Headlight_CommitCommand (m : Headlight_Module) : Headlight_Module :=
  { m with st := { m.st with currentCommand := m.st.requestedCommand } }

/-- `Headlight_MainFunction` with the FLM command and the injected
current-sense value as this tick's inputs. -/
def Headlight_MainFunction (m : Headlight_Module) (cmd : HeadlightCommand)
    (simCurrent : Nat) : Headlight_Module :=
  if !m.st.isInitialized then m
  else
    Headlight_CommitCommand
      (Headlight_ApplyUpdateFaultStatus
        (Headlight_CheckShortCircuit
          (Headlight_ApplyCheckOpenLoad
            (Headlight_ApplyReadFeedback
              (Headlight_SetOutputs (Headlight_TickEntry m cmd)) simCurrent))))

/-- Run `Headlight_MainFunction` over a list of (command, current) inputs. -/
def Headlight_Run (m : Headlight_Module) (inps : List (HeadlightCommand × Nat)) :
    Headlight_Module :=
  inps.foldl (fun m p => Headlight_MainFunction m p.1 p.2) m

/-! ## SafetyMonitor component (`SafetyMonitor.cpp`) -/

/-- `SafetyMonitor_StateType` (from `SafetyMonitor.h`). -/
structure SafetyMonitor_StateType where
  isInitialized : Bool
  inSafeState : Bool
  switchEventFault : Bool
  lightRequestFault : Bool
  flmFault : Bool
  headlightFault : Bool
  wdgmFault : Bool
  e2eStatus : Nat
  e2eSmStatus : E2E_SMStateType
  e2eFailureStartTime : Nat
  e2eTimeoutActive : Bool
  headlightStatus : HeadlightFaultStatus
  flmState : FLM_StateType
  wdgmGlobalStatus : WdgM_GlobalStatusType
  totalFaultCount : Nat
  firstFaultTime : Nat
  fttiActive : Bool
  safeStateReason : SafeStateReason
  safeStateEntryTime : Nat
  safeStateCommand : HeadlightCommand
  lastAmbientLight : AmbientLightLevel
  isDaytime : Bool
  globalStatus : SafetyStatusType
  currentTime : Nat
deriving DecidableEq

/-- Module statics of `SafetyMonitor.cpp`: the state record,
`SafetyMonitor_SystemTime`, and the propagation of
`FLM_TriggerSafeState` recorded as a raised-flag/reason pair. -/
structure SafetyMonitor_Module where
  st : SafetyMonitor_StateType
  systemTime : Nat
  flmTriggerRaised : Bool
  flmTriggerReason : SafeStateReason
deriving DecidableEq

/-- Inputs read by `SafetyMonitor_ReadComponentStatus` from the other
components and the (simulated) watchdog manager. -/
structure SafetyMonitor_Inputs where
  switchValid : Bool
  e2eStatus : Nat
  e2eSmStatus : E2E_SMStateType
  ambient : AmbientLightLevel
  flmState : FLM_StateType
  headlightStatus : HeadlightFaultStatus
  wdgmStatus : WdgM_GlobalStatusType
deriving DecidableEq

/-- `SafetyMonitor_Init`. -/
def SafetyMonitor_Init (m : SafetyMonitor_Module) : SafetyMonitor_Module :=
  { st :=
      { isInitialized := true
        inSafeState := false
        switchEventFault := false
        lightRequestFault := false
        flmFault := false
        headlightFault := false
        wdgmFault := false
        e2eStatus := 0
        e2eSmStatus := .valid
        e2eFailureStartTime := 0
        e2eTimeoutActive := false
        headlightStatus := .none
        flmState := .init
        wdgmGlobalStatus := .ok
        totalFaultCount := 0
        firstFaultTime := 0
        fttiActive := false
        safeStateReason := .none
        safeStateEntryTime := 0
        safeStateCommand := .off
        lastAmbientLight := { adcValue := 0, luxValue := 0, isValid := false }
        isDaytime := true
        globalStatus := .ok
        currentTime := 0 }
    systemTime := m.systemTime
    flmTriggerRaised := false
    flmTriggerReason := .none }

/-- `SafetyMonitor_TriggerSafeState`: idempotent latch with reason capture
and propagation to the FLM component. -/
def SafetyMonitor_TriggerSafeState (m : SafetyMonitor_Module) (reason : SafeStateReason) :
    SafetyMonitor_Module :=
  if !m.st.inSafeState then
    { m with st := { m.st with inSafeState := true
                               safeStateReason := reason
                               safeStateEntryTime := m.st.currentTime
                               globalStatus := .safeState }
             flmTriggerRaised := true
             flmTriggerReason := reason }
  else m

/-- `SafetyMonitor_ReadComponentStatus`: copy the component snapshots into
the state and derive the per-component fault booleans and the day/night
classification (`SAFETYMONITOR_DAY_THRESHOLD` = 1500). -/
def SafetyMonitor_ReadComponentStatus (st : SafetyMonitor_StateType)
    (inp : SafetyMonitor_Inputs) : SafetyMonitor_StateType :=
  { st with switchEventFault := !inp.switchValid
            e2eStatus := inp.e2eStatus
            e2eSmStatus := inp.e2eSmStatus
            lastAmbientLight := inp.ambient
            lightRequestFault := !inp.ambient.isValid
            isDaytime := if inp.ambient.isValid then inp.ambient.adcValue > 1500
                         else st.isDaytime
            flmState := inp.flmState
            flmFault := inp.flmState = .safe
            headlightStatus := inp.headlightStatus
            headlightFault := inp.headlightStatus ≠ .none
            wdgmGlobalStatus := inp.wdgmStatus
            wdgmFault := inp.wdgmStatus ≠ .ok }

/-- `SafetyMonitor_AggregrateFaults`: count the four fault booleans, manage
the FTTI timer arming, and trigger MultiFault at
`SAFETYMONITOR_MAX_FAULT_COUNT` (3). -/
def SafetyMonitor_AggregrateFaults (m : SafetyMonitor_Module) : SafetyMonitor_Module :=
  let faultCount :=
    (if m.st.switchEventFault then 1 else 0) +
    (if m.st.lightRequestFault then 1 else 0) +
    (if m.st.headlightFault then 1 else 0) +
    (if m.st.wdgmFault then 1 else 0)
  let m :=
    if faultCount > 0 ∧ m.st.totalFaultCount = 0 then
      { m with st := { m.st with firstFaultTime := m.st.currentTime, fttiActive := true } }
    else m
  let m :=
    if faultCount = 0 then { m with st := { m.st with fttiActive := false } } else m
  let m := { m with st := { m.st with totalFaultCount := faultCount } }
  if faultCount >= 3 then SafetyMonitor_TriggerSafeState m .multiFault else m

/-- `SafetyMonitor_CheckE2ETimeout`: a not-Valid supervisor starts or
continues timeout tracking; `SAFETYMONITOR_E2E_TIMEOUT_MS` (100 ms)
elapsed triggers safe state with reason E2eFailure. -/
def SafetyMonitor_CheckE2ETimeout (m : SafetyMonitor_Module) : SafetyMonitor_Module :=
  if m.st.e2eSmStatus ≠ .valid then
    if !m.st.e2eTimeoutActive then
      { m with st := { m.st with e2eFailureStartTime := m.st.currentTime
                                 e2eTimeoutActive := true } }
    else if sub32 m.st.currentTime m.st.e2eFailureStartTime >= 100 then
      SafetyMonitor_TriggerSafeState m .e2eFailure
    else m
  else
    { m with st := { m.st with e2eTimeoutActive := false } }

/-- `SafetyMonitor_CheckWdgMStatus`: Failed or Expired watchdog status
triggers safe state with reason WdgmFailure. -/
def SafetyMonitor_CheckWdgMStatus (m : SafetyMonitor_Module) : SafetyMonitor_Module :=
  if m.st.wdgmGlobalStatus = .failed ∨ m.st.wdgmGlobalStatus = .expired then
    SafetyMonitor_TriggerSafeState m .wdgmFailure
  else m

/-- `SafetyMonitor_CheckFTTI`: with the FTTI timer armed,
`SAFETYMONITOR_FTTI_MS` (200 ms) elapsed since the first fault triggers
safe state with reason Timeout. -/
def SafetyMonitor_CheckFTTI (m : SafetyMonitor_Module) : SafetyMonitor_Module :=
  if !m.st.fttiActive then m
  else if sub32 m.st.currentTime m.st.firstFaultTime >= 200 then
    SafetyMonitor_TriggerSafeState m .timeout
  else m

/-- `SafetyMonitor_UpdateGlobalStatus`. -/
def SafetyMonitor_UpdateGlobalStatus (st : SafetyMonitor_StateType) :
    SafetyMonitor_StateType :=
  if st.inSafeState then { st with globalStatus := .safeState }
  else if st.totalFaultCount > 0 then
    if st.totalFaultCount >= 2 then { st with globalStatus := .degraded }
    else { st with globalStatus := .warning }
  else { st with globalStatus := .ok }

/-- `SafetyMonitor_DetermineSafeStateCommand`: day -> Off, night -> LowBeam. -/
def SafetyMonitor_DetermineSafeStateCommand (st : SafetyMonitor_StateType) :
    SafetyMonitor_StateType :=
  if st.isDaytime then { st with safeStateCommand := .off }
  else { st with safeStateCommand := .lowBeam }

/-- The timestamp advance and component reads at the top of
`SafetyMonitor_MainFunction` (lines 95-100). -/
def SafetyMonitor_TickEntry (m : SafetyMonitor_Module) (inp : SafetyMonitor_Inputs) :
    SafetyMonitor_Module :=
  { m with st := SafetyMonitor_ReadComponentStatus
                   { m.st with currentTime := m.systemTime } inp
           systemTime := wrap32 (m.systemTime + 5) }

/-- Lift `SafetyMonitor_UpdateGlobalStatus` to the module. -/
def SafetyMonitor_ApplyGlobalStatus (m : SafetyMonitor_Module) : SafetyMonitor_Module :=
  { m with st := SafetyMonitor_UpdateGlobalStatus m.st }

/-- The trailing safe-command determination of `SafetyMonitor_MainFunction`
(lines 117-120). -/
def SafetyMonitor_ApplySafeCommand (m : SafetyMonitor_Module) : SafetyMonitor_Module :=
  if m.st.inSafeState then
    { m with st := SafetyMonitor_DetermineSafeStateCommand m.st }
  else m

/-- `SafetyMonitor_MainFunction`. -/
def SafetyMonitor_MainFunction (m : SafetyMonitor_Module) (inp : SafetyMonitor_Inputs) :
    SafetyMonitor_Module :=
  if !m.st.isInitialized then m
  else
    SafetyMonitor_ApplySafeCommand
      (SafetyMonitor_ApplyGlobalStatus
        (SafetyMonitor_CheckFTTI
          (SafetyMonitor_CheckWdgMStatus
            (SafetyMonitor_CheckE2ETimeout
              (SafetyMonitor_AggregrateFaults
                (SafetyMonitor_TickEntry m inp))))))

/-- Run `SafetyMonitor_MainFunction` over a list of tick inputs. -/
def SafetyMonitor_Run (m : SafetyMonitor_Module) (inps : List SafetyMonitor_Inputs) :
    SafetyMonitor_Module :=
  inps.foldl SafetyMonitor_MainFunction m

/-! ## Zero-initialised module states (C statics before `*_Init` runs) -/

/-- The zero-initialised `FLM_Application.cpp` statics (before `FLM_Init`). -/
def FLM_ModuleZero : FLM_Module :=
  { st :=
      { isInitialized := false
        currentState := .init
        previousState := .init
        stateEntryTime := 0
        lightSwitch := { command := .off, isValid := false, e2eStatus := 0 }
        ambientLight := { adcValue := 0, luxValue := 0, isValid := false }
        switchSignalStatus := .valid
        ambientSignalStatus := .valid
        e2eStatus := 0
        headlightCommand := .off
        lightsCurrentlyOn := false
        hysteresisActive := false
        consecutiveErrors := 0
        e2eErrorStartTime := 0
        e2eTimeoutActive := false
        degradedEntryTime := 0
        currentTime := 0 }
    systemTime := 0
    externalSafeStateTrigger := false
    safeStateReason := .none }

/-- The zero-initialised `SwitchEvent.cpp` statics. -/
def SwitchEvent_ModuleZero : SwitchEvent_Module :=
  { st :=
      { isInitialized := false
        e2eConfig := { DataLength := 0, DataID := 0, MaxDeltaCounter := 0
                       MaxNoNewOrRepeatedData := 0, SyncCounter := 0, CounterOffset := 0
                       CRCOffset := 0, DataIDNibbleOffset := 0, DataIDMode := false }
        e2eCheckState := { LastValidCounter := 0, MaxDeltaCounter := 0
                           WaitForFirstData := false, NewDataAvailable := false
                           LostData := 0, Status := .ok
                           NoNewOrRepeatedDataCounter := 0, SyncCounter := 0 }
        e2eSmState := { OkCount := 0, ErrorCount := 0, SMState := .valid }
        e2eSmConfig := { WindowSize := 0, MinOkStateInit := 0, MaxErrorStateInit := 0
                         MinOkStateValid := 0, MinOkStateInvalid := 0
                         MaxErrorStateValid := 0, MaxErrorStateInvalid := 0 }
        lightSwitchStatus := { command := .off, isValid := false, e2eStatus := 0 }
        e2eStatus := .ok
        e2eSmStatus := .valid
        timeoutCounter := 0
        e2eTimeoutCounter := 0
        lastValidTimestamp := 0
        currentTimestamp := 0
        consecutiveE2EErrors := 0
        consecutiveTimeouts := 0
        e2eFailureActive := false
        timeoutActive := false
        lastMessageData := [0, 0, 0, 0]
        newMessageReceived := false }
    systemTime := 0 }

/-- The zero-initialised `LightRequest.cpp` statics. -/
def LightRequest_ModuleZero : LightRequest_Module :=
  { st := { LightRequest_Init with isInitialized := false }, systemTime := 0 }

/-- The zero-initialised `Headlight.cpp` statics. -/
def Headlight_ModuleZero : Headlight_Module :=
  { st :=
      { isInitialized := false
        currentCommand := .off
        requestedCommand := .off
        lowBeamOutput := false
        highBeamOutput := false
        feedbackCurrent := 0
        feedbackState := false
        faultStatus := .none
        openLoadCounter := 0
        shortCircuitCounter := 0
        faultDetectStartTime := 0
        faultConfirmed := false
        commandChangeTime := 0
        currentTime := 0 }
    systemTime := 0
    dioLowBeam := false
    dioHighBeam := false }

/-- The zero-initialised `SafetyMonitor.cpp` statics. -/
def SafetyMonitor_ModuleZero : SafetyMonitor_Module :=
  { st :=
      { isInitialized := false
        inSafeState := false
        switchEventFault := false
        lightRequestFault := false
        flmFault := false
        headlightFault := false
        wdgmFault := false
        e2eStatus := 0
        e2eSmStatus := .valid
        e2eFailureStartTime := 0
        e2eTimeoutActive := false
        headlightStatus := .none
        flmState := .init
        wdgmGlobalStatus := .ok
        totalFaultCount := 0
        firstFaultTime := 0
        fttiActive := false
        safeStateReason := .none
        safeStateEntryTime := 0
        safeStateCommand := .off
        lastAmbientLight := { adcValue := 0, luxValue := 0, isValid := false }
        isDaytime := false
        globalStatus := .ok
        currentTime := 0 }
    systemTime := 0
    flmTriggerRaised := false
    flmTriggerReason := .none }

/-! ## Protect/check chains and concrete scenarios used by the claims -/

/-- One protect-then-check round trip: the sender protects the 4-byte frame
`[0, 0, b2, b3]` (CRC byte and counter nibble are overwritten by
`E2E_P01Protect`), the receiver immediately checks the produced frame. -/
def E2E_ProtectCheckStep (config : E2E_P01ConfigType)
    (pc : E2E_P01ProtectStateType × E2E_P01CheckStateType) (payload : Nat × Nat) :
    (E2E_P01ProtectStateType × E2E_P01CheckStateType) × E2E_P01CheckStatusType :=
  match E2E_P01Protect config pc.1 [0, 0, payload.1, payload.2] with
  | some (p, frame) =>
      let cv := E2E_P01Check config pc.2 frame
      ((p, cv.1), cv.2)
  | none => (pc, pc.2.Status)

/-- The verdict sequence of consecutive protect-then-check round trips. -/
def E2E_ProtectCheckVerdicts (config : E2E_P01ConfigType)
    (p : E2E_P01ProtectStateType) (c : E2E_P01CheckStateType) :
    List (Nat × Nat) → List E2E_P01CheckStatusType
  | [] => []
  | payload :: rest =>
      let ((p1, c1), v) := E2E_ProtectCheckStep config (p, c) payload
      v :: E2E_ProtectCheckVerdicts config p1 c1 rest

/-- Closed form of the verdict of the i-th (0-based) round trip under the
light-switch configuration: `Initial` first, `OkSomeLost` at every counter
wrap (positive multiples of 15), `Ok` otherwise. -/
def E2E_ChainVerdict (i : Nat) : E2E_P01CheckStatusType :=
  if i = 0 then .initial else if i % 15 = 0 then .okSomeLost else .ok

/-- Closed form of the sender state after i round trips. -/
def E2E_ChainProtectState (i : Nat) : E2E_P01ProtectStateType :=
  { Counter := i % 15 }

/-- Closed form of the receiver state after i round trips under the
light-switch configuration. -/
def E2E_ChainCheckState (i : Nat) : E2E_P01CheckStateType :=
  if i = 0 then E2E_P01CheckInit
  else
    { LastValidCounter := (i - 1) % 15
      MaxDeltaCounter := 1
      WaitForFirstData := false
      NewDataAvailable := false
      LostData := ((i - 1) / 15) % 65536
      Status := E2E_ChainVerdict (i - 1)
      NoNewOrRepeatedDataCounter := 0
      SyncCounter := 0 }

/-- Protect a light-switch frame with command byte `cmd`, deliver it to the
SwitchEvent component, and run one `SwitchEvent_MainFunction` tick. -/
def SwitchEvent_SendAndTick (pm : E2E_P01ProtectStateType × SwitchEvent_Module)
    (cmd : Nat) : E2E_P01ProtectStateType × SwitchEvent_Module :=
  match E2E_P01Protect SwitchEvent_E2EConfig pm.1 [0, 0, cmd, 0] with
  | some (p, frame) =>
      (p, SwitchEvent_MainFunction
            { pm.2 with st := SwitchEvent_ProcessCanMessage pm.2.st frame })
  | none => pm

/-- Feed a list of command bytes through protected frames into a freshly
initialised SwitchEvent component, one frame per tick. -/
def SwitchEvent_FrameRun (cmds : List Nat) :
    E2E_P01ProtectStateType × SwitchEvent_Module :=
  cmds.foldl SwitchEvent_SendAndTick
    (E2E_P01ProtectInit, { st := SwitchEvent_Init, systemTime := 0 })

/-- The SwitchEvent module state of the out-of-range-command scenario just
before the fourth tick: three in-range frames have been processed and a
fourth frame whose command byte is 4 has been buffered. -/
def SwitchEvent_OutOfRangePre : SwitchEvent_Module :=
  let pm := SwitchEvent_FrameRun [0, 0, 0]
  match E2E_P01Protect SwitchEvent_E2EConfig pm.1 [0, 0, 4, 0] with
  | some (_, frame) => { pm.2 with st := SwitchEvent_ProcessCanMessage pm.2.st frame }
  | none => pm.2

/-- The same scenario after the fourth tick. -/
def SwitchEvent_OutOfRangePost : SwitchEvent_Module :=
  SwitchEvent_MainFunction SwitchEvent_OutOfRangePre

/-- All-valid FLM tick inputs with a HighBeam switch request and a bright
(valid) ambient reading. -/
def FLM_InputsHighBeamBright : FLM_Inputs :=
  { lightSwitch := { command := .highBeam, isValid := true, e2eStatus := 0 }
    e2eStatus := 0
    switchTimeoutActive := false
    ambientLight := { adcValue := 2000, luxValue := 500, isValid := true }
    ambientSignalStatus := .valid }

/-- Safe-state entry scenario for the FLM controller: one tick with all
inputs valid (Init -> Normal, command HighBeam), then the external
safe-state trigger is raised and one further tick runs. -/
def FLM_SafeEntryTick : FLM_Module :=
  let m := FLM_MainFunction (FLM_Init FLM_ModuleZero) FLM_InputsHighBeamBright
  FLM_MainFunction (FLM_TriggerSafeState m .manual) FLM_InputsHighBeamBright

/-- SafetyMonitor tick inputs: everything healthy except that the E2E
supervisor is not Valid. -/
def SafetyMonitor_InputsE2ENotValid : SafetyMonitor_Inputs :=
  { switchValid := true
    e2eStatus := 0
    e2eSmStatus := .init
    ambient := { adcValue := 2000, luxValue := 500, isValid := true }
    flmState := .normal
    headlightStatus := .none
    wdgmStatus := .ok }

/-- SafetyMonitor tick inputs: the E2E supervisor is still not Valid and
the watchdog global status is Failed on the same tick. -/
def SafetyMonitor_InputsE2EAndWdgm : SafetyMonitor_Inputs :=
  { SafetyMonitor_InputsE2ENotValid with wdgmStatus := .failed }

/-- Dual-trigger scenario: 20 ticks with the supervisor not Valid (arming
and aging the E2E timeout to exactly 100 ms), then one tick on which both
the E2E-sustained condition and the watchdog condition hold. -/
def SafetyMonitor_DualTriggerRun : SafetyMonitor_Module :=
  SafetyMonitor_Run (SafetyMonitor_Init SafetyMonitor_ModuleZero)
    (List.replicate 20 SafetyMonitor_InputsE2ENotValid ++ [SafetyMonitor_InputsE2EAndWdgm])

/-- Short-circuit scenario for the Headlight component: LowBeam commanded,
20000 mA sensed for two ticks (fault confirmed on the second), then a tick
on which the sensed current has collapsed to 0. -/
def Headlight_ShortRun1 : Headlight_Module :=
  Headlight_MainFunction (Headlight_Init Headlight_ModuleZero) .lowBeam 20000

/-- The short-circuit scenario after the second tick (fault confirmed). -/
def Headlight_ShortRun2 : Headlight_Module :=
  Headlight_Run (Headlight_Init Headlight_ModuleZero) [(.lowBeam, 20000), (.lowBeam, 20000)]

/-- The same scenario after the third tick (current 0). -/
def Headlight_ShortRun3 : Headlight_Module :=
  Headlight_MainFunction Headlight_ShortRun2 .lowBeam 0

/-- Open-circuit recovery scenario for the LightRequest component: one
sample of 50 (filtered 50 < 100, OpenCircuit latched), then three samples
of 2000, leaving the filtered mean at 1512 with a full buffer. -/
def LightRequest_RecoveryRun : LightRequest_Module :=
  LightRequest_Run { st := LightRequest_Init, systemTime := 0 } [50, 2000, 2000, 2000]

/-- The number of active faults `SafetyMonitor_AggregrateFaults` counts on a
tick, expressed over that tick's inputs (each of switch-invalid,
ambient-invalid, headlight-fault, watchdog-not-OK contributes one). -/
def SafetyMonitor_InputFaultCount (inp : SafetyMonitor_Inputs) : Nat :=
  (if !inp.switchValid then 1 else 0) +
  (if !inp.ambient.isValid then 1 else 0) +
  (if inp.headlightStatus ≠ .none then 1 else 0) +
  (if inp.wdgmStatus ≠ .ok then 1 else 0)

/-- The dual-trigger scenario state just before its final tick. -/
def SafetyMonitor_DualTriggerPre : SafetyMonitor_Module :=
  SafetyMonitor_Run (SafetyMonitor_Init SafetyMonitor_ModuleZero)
    (List.replicate 20 SafetyMonitor_InputsE2ENotValid)

/-! # Theorems -/

/-! ## C10: uninitialised components ignore MainFunction calls -/

/-- C10: for every component (FLM, SwitchEvent, LightRequest, Headlight,
SafetyMonitor), a MainFunction call on an uninitialised component returns
immediately and leaves the full module state — the state record and the
system-time counter — unchanged. -/
theorem C10_uninitialized_noop :
    (∀ (m : FLM_Module) (inp : FLM_Inputs),
        m.st.isInitialized = false → FLM_MainFunction m inp = m) ∧
    (∀ (m : SwitchEvent_Module),
        m.st.isInitialized = false → SwitchEvent_MainFunction m = m) ∧
    (∀ (m : LightRequest_Module) (raw : Nat),
        m.st.isInitialized = false → LightRequest_MainFunction m raw = m) ∧
    (∀ (m : Headlight_Module) (cmd : HeadlightCommand) (cur : Nat),
        m.st.isInitialized = false → Headlight_MainFunction m cmd cur = m) ∧
    (∀ (m : SafetyMonitor_Module) (inp : SafetyMonitor_Inputs),
        m.st.isInitialized = false → SafetyMonitor_MainFunction m inp = m) := by
  refine ⟨?_, ?_, ?_, ?_, ?_⟩ <;> intro m
  · intro inp h; simp [FLM_MainFunction, h]
  · intro h; simp [SwitchEvent_MainFunction, h]
  · intro raw h; simp [LightRequest_MainFunction, h]
  · intro cmd cur h; simp [Headlight_MainFunction, h]
  · intro inp h; simp [SafetyMonitor_MainFunction, h]

/-- C10 witness: the zero-initialised modules are left untouched. -/
theorem C10_uninitialized_noop_witness :
    FLM_MainFunction FLM_ModuleZero FLM_InputsHighBeamBright = FLM_ModuleZero ∧
    SwitchEvent_MainFunction SwitchEvent_ModuleZero = SwitchEvent_ModuleZero ∧
    LightRequest_MainFunction LightRequest_ModuleZero 2000 = LightRequest_ModuleZero ∧
    Headlight_MainFunction Headlight_ModuleZero .lowBeam 500 = Headlight_ModuleZero ∧
    SafetyMonitor_MainFunction SafetyMonitor_ModuleZero SafetyMonitor_InputsE2ENotValid
      = SafetyMonitor_ModuleZero :=
  ⟨C10_uninitialized_noop.1 FLM_ModuleZero FLM_InputsHighBeamBright (by decide),
   C10_uninitialized_noop.2.1 SwitchEvent_ModuleZero (by decide),
   C10_uninitialized_noop.2.2.1 LightRequest_ModuleZero 2000 (by decide),
   C10_uninitialized_noop.2.2.2.1 Headlight_ModuleZero .lowBeam 500 (by decide),
   C10_uninitialized_noop.2.2.2.2 SafetyMonitor_ModuleZero SafetyMonitor_InputsE2ENotValid
     (by decide)⟩

/-! ## C8: a CRC mismatch yields WrongCrc and changes only the Status field -/

/-- C8: for every configuration, every checker state and every non-empty
frame whose received CRC byte differs from the CRC computed over the
DataID bytes and the non-CRC payload bytes, `E2E_P01Check` returns
`WrongCrc` and the post state is the pre state with only `Status`
replaced — in particular `LastValidCounter` is unchanged. -/
theorem C8_wrongcrc_only_status (config : E2E_P01ConfigType)
    (state : E2E_P01CheckStateType) (data : List Nat)
    (hne : data ≠ [])
    (hcrc : E2E_P01_GetCRC data config ≠ E2E_P01_ComputeCRC config data) :
    E2E_P01Check config state data = ({ state with Status := .wrongcrc }, .wrongcrc) := by
  have hlen : data.length ≠ 0 := by simpa using hne
  simp [E2E_P01Check, hlen, hcrc]

/-- C8 witness: the all-zero frame under the light-switch configuration has
received CRC 0 but computed CRC 116. -/
theorem C8_wrongcrc_only_status_witness :
    E2E_P01Check SwitchEvent_E2EConfig E2E_P01CheckInit [0, 0, 0, 0]
      = ({ E2E_P01CheckInit with Status := .wrongcrc }, .wrongcrc) :=
  C8_wrongcrc_only_status SwitchEvent_E2EConfig E2E_P01CheckInit [0, 0, 0, 0]
    (by decide) (by decide)

/-! ## C9: supervisor counter updates -/

/-- C9 counterexample: a `Repeated` status DOES increment the error count
(claim says it does not): from supervisor state Valid with counters
(Ok = 3, Error = 0), one `E2E_SMCheck` step on `Repeated` under the
SwitchEvent supervisor configuration leaves the ok count at 3 but raises
the error count to 1. -/
theorem C9_counterexample :
    (E2E_SMCheck SwitchEvent_SMConfig
        { OkCount := 3, ErrorCount := 0, SMState := .valid } .repeated).ErrorCount = 1 ∧
    (E2E_SMCheck SwitchEvent_SMConfig
        { OkCount := 3, ErrorCount := 0, SMState := .valid } .repeated).OkCount = 3 := by
  decide

/-- C9 (amended): in the counter-update phase of an `E2E_SMCheck` step,
`Ok`, `OkSomeLost` and `Initial` increment the ok count (saturating at
255) and clear the error count; `Repeated` leaves the ok count unchanged
but increments the error count (saturating at 255); every other status
clears the ok count and increments the error count (saturating); and the
full step is exactly this counter update followed by the state-machine
transition (which may clear both counters again on a state change). -/
theorem C9_sm_counter_update :
    (∀ (st : E2E_SMCheckStateType) (s : E2E_P01CheckStatusType),
        s = .ok ∨ s = .okSomeLost ∨ s = .initial →
        E2E_SMUpdateCounters st s =
          { st with OkCount := if st.OkCount < 255 then st.OkCount + 1 else st.OkCount
                    ErrorCount := 0 }) ∧
    (∀ (st : E2E_SMCheckStateType),
        E2E_SMUpdateCounters st .repeated =
          { st with ErrorCount := if st.ErrorCount < 255 then st.ErrorCount + 1
                                  else st.ErrorCount }) ∧
    (∀ (st : E2E_SMCheckStateType) (s : E2E_P01CheckStatusType),
        s ≠ .ok → s ≠ .okSomeLost → s ≠ .initial → s ≠ .repeated →
        E2E_SMUpdateCounters st s =
          { st with OkCount := 0
                    ErrorCount := if st.ErrorCount < 255 then st.ErrorCount + 1
                                  else st.ErrorCount }) ∧
    (∀ (config : E2E_SMConfigType) (st : E2E_SMCheckStateType) (s : E2E_P01CheckStatusType),
        E2E_SMCheck config st s = E2E_SMTransition config (E2E_SMUpdateCounters st s) s) := by
  refine ⟨?_, ?_, ?_, fun _ _ _ => rfl⟩
  · rintro st s (rfl | rfl | rfl) <;>
      by_cases h : st.OkCount < 255 <;> simp [E2E_SMUpdateCounters, h]
  · intro st
    by_cases h : st.ErrorCount < 255 <;> simp [E2E_SMUpdateCounters, h]
  · intro st s h1 h2 h3 h4
    cases s <;> simp_all <;>
      by_cases h : st.ErrorCount < 255 <;> simp [E2E_SMUpdateCounters, h]

/-- C9 witness for the amended theorem: concrete applications of each
counter-update case. -/
theorem C9_sm_counter_update_witness :
    E2E_SMUpdateCounters { OkCount := 4, ErrorCount := 7, SMState := .valid } .ok
      = { OkCount := 5, ErrorCount := 0, SMState := .valid } ∧
    E2E_SMUpdateCounters { OkCount := 4, ErrorCount := 7, SMState := .valid } .repeated
      = { OkCount := 4, ErrorCount := 8, SMState := .valid } ∧
    E2E_SMUpdateCounters { OkCount := 4, ErrorCount := 7, SMState := .valid } .wrongcrc
      = { OkCount := 0, ErrorCount := 8, SMState := .valid } := by
  refine ⟨?_, ?_, ?_⟩
  · have h := C9_sm_counter_update.1 { OkCount := 4, ErrorCount := 7, SMState := .valid } .ok
      (by decide)
    simpa using h
  · have h := C9_sm_counter_update.2.1 { OkCount := 4, ErrorCount := 7, SMState := .valid }
    simpa using h
  · have h := C9_sm_counter_update.2.2.1 { OkCount := 4, ErrorCount := 7, SMState := .valid }
      .wrongcrc (by decide) (by decide) (by decide) (by decide)
    simpa using h

/-! ## C1: Safe is an absorbing state of the FLM step relation -/

/-- Helper: `FLM_ReadInputs` does not touch the state-machine state. -/
theorem FLM_ReadInputs_currentState (st : FLM_Application_StateType) (inp : FLM_Inputs) :
    (FLM_ReadInputs st inp).currentState = st.currentState := rfl

/-- Helper: `FLM_StateSafe` only rewrites the headlight command, from the
ambient reading. -/
theorem FLM_StateSafe_eq (st : FLM_Application_StateType) :
    FLM_StateSafe st =
      { st with headlightCommand :=
          if st.ambientLight.isValid then
            (if st.ambientLight.adcValue < 800 then HeadlightCommand.lowBeam else .off)
          else .lowBeam } := by
  unfold FLM_StateSafe
  split
  · split <;> simp_all
  · simp_all

/-- Helper: a full state-machine-plus-command tick from Safe stamps the
previous state and recomputes only the headlight command. -/
theorem FLM_tick_safe (st : FLM_Application_StateType) (trigger : Bool)
    (h : st.currentState = .safe) :
    FLM_DetermineHeadlightCommand (FLM_ProcessStateMachine st trigger) =
      { st with previousState := .safe
                headlightCommand :=
                  if st.ambientLight.isValid then
                    (if st.ambientLight.adcValue < 800 then HeadlightCommand.lowBeam else .off)
                  else .lowBeam } := by
  unfold FLM_ProcessStateMachine FLM_DetermineHeadlightCommand
  simp [h, FLM_StateSafe_eq]

/-- Helper: one `FLM_MainFunction` tick from Safe stays in Safe. -/
theorem FLM_MainFunction_preserves_safe (m : FLM_Module) (inp : FLM_Inputs)
    (h : m.st.currentState = .safe) :
    (FLM_MainFunction m inp).st.currentState = .safe := by
  by_cases hi : m.st.isInitialized
  · simp only [FLM_MainFunction, hi, Bool.not_true, Bool.false_eq_true, if_false]
    rw [FLM_tick_safe]
    · exact h
    · exact h
  · simp [FLM_MainFunction, hi, h]

/-- C1: once `currentState` is Safe at the end of a tick, every later
`FLM_MainFunction` tick of the same power cycle (any sequence of switch
reports, ambient readings and trigger values; no intervening `FLM_Init`)
leaves `currentState` equal to Safe: Safe is absorbing. -/
theorem C1_safe_absorbing (m : FLM_Module) (inps : List FLM_Inputs)
    (h : m.st.currentState = .safe) :
    (FLM_Run m inps).st.currentState = .safe := by
  induction inps generalizing m with
  | nil => exact h
  | cons inp rest ih =>
      exact ih (FLM_MainFunction m inp) (FLM_MainFunction_preserves_safe m inp h)

/-- C1 witness: the safe-entry scenario state stays Safe over three further
ticks. -/
theorem C1_safe_absorbing_witness :
    (FLM_Run FLM_SafeEntryTick
        [FLM_InputsHighBeamBright, FLM_InputsHighBeamBright, FLM_InputsHighBeamBright]
      ).st.currentState = .safe :=
  C1_safe_absorbing FLM_SafeEntryTick
    [FLM_InputsHighBeamBright, FLM_InputsHighBeamBright, FLM_InputsHighBeamBright]
    (by decide)

/-! ## C4: headlight command in Safe state -/

/-- C4 counterexample: on the very tick in which Safe is entered (here via
the external trigger out of Normal), the headlight command is NOT
recomputed from the ambient reading: the state ends the tick in Safe with
a valid bright ambient reading (adc 2000 >= 800), yet the command remains
the previous HighBeam instead of the Off the claim requires. -/
theorem C4_counterexample :
    FLM_SafeEntryTick.st.currentState = .safe ∧
    FLM_SafeEntryTick.st.ambientLight.isValid = true ∧
    FLM_SafeEntryTick.st.ambientLight.adcValue = 2000 ∧
    FLM_SafeEntryTick.st.headlightCommand = .highBeam := by
  decide

/-- C4 (amended): whenever the FlmController is in Safe at the START of a
tick (equivalently, from the first tick after Safe entry onward), the
command at the end of that tick follows the ambient fallback: LowBeam if
the sampled ambient reading is invalid (fail-visible); LowBeam if it is
valid with filtered value below 800 (AmbientThresholdOn); Off if it is
valid with filtered value at least 800.  On the tick during which Safe is
entered, the previous headlight command is retained instead. -/
theorem C4_safe_command (m : FLM_Module) (inp : FLM_Inputs)
    (hi : m.st.isInitialized = true)
    (h : m.st.currentState = .safe) :
    (FLM_MainFunction m inp).st.headlightCommand =
      (if inp.ambientLight.isValid then
        (if inp.ambientLight.adcValue < 800 then .lowBeam else .off)
       else .lowBeam) := by
  simp only [FLM_MainFunction, hi, Bool.not_true, Bool.false_eq_true, if_false]
  rw [FLM_tick_safe]
  · rfl
  · exact h

/-- C4 witness: one further tick of the safe-entry scenario (already in
Safe at tick start, ambient valid at 2000) commands Off. -/
theorem C4_safe_command_witness :
    (FLM_MainFunction FLM_SafeEntryTick FLM_InputsHighBeamBright).st.headlightCommand
      = .off := by
  have h := C4_safe_command FLM_SafeEntryTick FLM_InputsHighBeamBright
    (by decide) (by decide)
  simpa using h

/-! ## C3: short-circuit protection of the output stage -/

/-- Helper: field effects of `Headlight_SetOutputs`. -/
theorem Headlight_SetOutputs_fields (x : Headlight_Module) :
    (Headlight_SetOutputs x).st.feedbackCurrent = x.st.feedbackCurrent ∧
    (Headlight_SetOutputs x).st.shortCircuitCounter = x.st.shortCircuitCounter ∧
    (Headlight_SetOutputs x).st.requestedCommand = x.st.requestedCommand ∧
    (Headlight_SetOutputs x).st.faultConfirmed = x.st.faultConfirmed ∧
    (Headlight_SetOutputs x).st.lowBeamOutput = decide (x.st.requestedCommand ≠ .off) ∧
    (Headlight_SetOutputs x).st.highBeamOutput = decide (x.st.requestedCommand = .highBeam) ∧
    (Headlight_SetOutputs x).dioLowBeam = decide (x.st.requestedCommand ≠ .off) ∧
    (Headlight_SetOutputs x).dioHighBeam = decide (x.st.requestedCommand = .highBeam) := by
  unfold Headlight_SetOutputs
  cases hx : x.st.requestedCommand <;> dsimp only <;> split_ifs <;>
    (try simp_all) <;> (rename_i hcc; rw [← hcc]; decide)

/-- Helper: field effects of `Headlight_CheckOpenLoad`. -/
theorem Headlight_CheckOpenLoad_fields (st : Headlight_StateType) :
    (Headlight_CheckOpenLoad st).feedbackCurrent = st.feedbackCurrent ∧
    (Headlight_CheckOpenLoad st).shortCircuitCounter = st.shortCircuitCounter ∧
    (Headlight_CheckOpenLoad st).requestedCommand = st.requestedCommand ∧
    (Headlight_CheckOpenLoad st).lowBeamOutput = st.lowBeamOutput ∧
    (Headlight_CheckOpenLoad st).highBeamOutput = st.highBeamOutput ∧
    (st.faultConfirmed = true → (Headlight_CheckOpenLoad st).faultConfirmed = true) := by
  unfold Headlight_CheckOpenLoad
  split_ifs <;> (try simp_all) <;> split_ifs <;> simp_all

/-- Helper: `Headlight_CheckShortCircuit` on the tick that reaches the
confirm count de-energises both lines and latches the Short fault. -/
theorem Headlight_CheckShortCircuit_confirm (x : Headlight_Module)
    (hcur : x.st.feedbackCurrent > 15000)
    (hcnt : wrap8 (x.st.shortCircuitCounter + 1) ≥ 2) :
    Headlight_CheckShortCircuit x =
      { x with st := { x.st with shortCircuitCounter := wrap8 (x.st.shortCircuitCounter + 1)
                                 faultStatus := .short
                                 faultConfirmed := true
                                 lowBeamOutput := false
                                 highBeamOutput := false }
               dioLowBeam := false
               dioHighBeam := false } := by
  unfold Headlight_CheckShortCircuit
  rw [if_pos hcur, if_pos]
  exact hcnt

/-- Helper: `Headlight_CheckShortCircuit` without overcurrent only clears
the debounce counter. -/
theorem Headlight_CheckShortCircuit_clear (x : Headlight_Module)
    (hcur : ¬ (x.st.feedbackCurrent > 15000)) :
    Headlight_CheckShortCircuit x = { x with st := { x.st with shortCircuitCounter := 0 } } := by
  unfold Headlight_CheckShortCircuit
  rw [if_neg hcur]

/-- Helper: `Headlight_CheckShortCircuit` never clears `faultConfirmed`. -/
theorem Headlight_CheckShortCircuit_latch (x : Headlight_Module)
    (h : x.st.faultConfirmed = true) :
    (Headlight_CheckShortCircuit x).st.faultConfirmed = true := by
  unfold Headlight_CheckShortCircuit
  split_ifs <;> (try simp_all) <;> split_ifs <;> simp_all

/-- Helper: field effects of `Headlight_UpdateFaultStatus`. -/
theorem Headlight_UpdateFaultStatus_fields (st : Headlight_StateType) :
    (Headlight_UpdateFaultStatus st).lowBeamOutput = st.lowBeamOutput ∧
    (Headlight_UpdateFaultStatus st).highBeamOutput = st.highBeamOutput ∧
    (Headlight_UpdateFaultStatus st).faultConfirmed = st.faultConfirmed ∧
    (Headlight_UpdateFaultStatus st).requestedCommand = st.requestedCommand ∧
    (st.shortCircuitCounter ≠ 0 → Headlight_UpdateFaultStatus st = st) := by
  unfold Headlight_UpdateFaultStatus
  split_ifs <;> simp_all

/-- Helper: a tick that senses overcurrent (current > 15000 mA) and whose
debounce counter reaches `HEADLIGHT_FAULT_CONFIRM_CYCLES` (2) ends with
both outputs, both DIO lines, Short and the confirmed latch set. -/
theorem Headlight_tick_confirm (m : Headlight_Module) (cmd : HeadlightCommand) (cur : Nat)
    (hi : m.st.isInitialized = true) (hcur : cur > 15000)
    (hcnt : wrap8 (m.st.shortCircuitCounter + 1) ≥ 2) :
    (Headlight_MainFunction m cmd cur).st.lowBeamOutput = false ∧
    (Headlight_MainFunction m cmd cur).st.highBeamOutput = false ∧
    (Headlight_MainFunction m cmd cur).dioLowBeam = false ∧
    (Headlight_MainFunction m cmd cur).dioHighBeam = false ∧
    (Headlight_MainFunction m cmd cur).st.faultStatus = .short ∧
    (Headlight_MainFunction m cmd cur).st.faultConfirmed = true := by
  unfold Headlight_MainFunction
  rw [if_neg (by simp [hi])]
  generalize hA : Headlight_TickEntry m cmd = A
  have hAsc : A.st.shortCircuitCounter = m.st.shortCircuitCounter := by rw [← hA]; rfl
  generalize hB : Headlight_SetOutputs A = B
  have hBf := Headlight_SetOutputs_fields A
  rw [hB] at hBf
  generalize hC : Headlight_ApplyReadFeedback B cur = C
  have hCcur : C.st.feedbackCurrent = cur := by rw [← hC]; rfl
  have hCsc : C.st.shortCircuitCounter = B.st.shortCircuitCounter := by rw [← hC]; rfl
  generalize hD : Headlight_ApplyCheckOpenLoad C = D
  have hDst : D.st = Headlight_CheckOpenLoad C.st := by rw [← hD]; rfl
  have hDf := Headlight_CheckOpenLoad_fields C.st
  have hDcur : D.st.feedbackCurrent = cur := by rw [hDst, hDf.1, hCcur]
  have hDsc : D.st.shortCircuitCounter = m.st.shortCircuitCounter := by
    rw [hDst, hDf.2.1, hCsc, hBf.2.1, hAsc]
  rw [Headlight_CheckShortCircuit_confirm D (by omega) (by rw [hDsc]; exact hcnt)]
  have hne : wrap8 (D.st.shortCircuitCounter + 1) ≠ 0 := by rw [hDsc]; omega
  have hU := (Headlight_UpdateFaultStatus_fields
    { D.st with shortCircuitCounter := wrap8 (D.st.shortCircuitCounter + 1)
                faultStatus := .short
                faultConfirmed := true
                lowBeamOutput := false
                highBeamOutput := false }).2.2.2.2 (by simpa using hne)
  simp [Headlight_ApplyUpdateFaultStatus, Headlight_CommitCommand, hU]

/-- Helper: the confirmed-fault latch survives every tick. -/
theorem Headlight_tick_latch (m : Headlight_Module) (cmd : HeadlightCommand) (cur : Nat)
    (h : m.st.faultConfirmed = true) :
    (Headlight_MainFunction m cmd cur).st.faultConfirmed = true := by
  by_cases hi : m.st.isInitialized
  · unfold Headlight_MainFunction
    rw [if_neg (by simp [hi])]
    generalize hA : Headlight_TickEntry m cmd = A
    have hAc : A.st.faultConfirmed = true := by rw [← hA]; exact h
    generalize hB : Headlight_SetOutputs A = B
    have hBf := Headlight_SetOutputs_fields A
    rw [hB] at hBf
    have hBc : B.st.faultConfirmed = true := by rw [hBf.2.2.2.1]; exact hAc
    generalize hC : Headlight_ApplyReadFeedback B cur = C
    have hCc : C.st.faultConfirmed = true := by rw [← hC]; exact hBc
    generalize hD : Headlight_ApplyCheckOpenLoad C = D
    have hDst : D.st = Headlight_CheckOpenLoad C.st := by rw [← hD]; rfl
    have hDc : D.st.faultConfirmed = true := by
      rw [hDst]; exact (Headlight_CheckOpenLoad_fields C.st).2.2.2.2.2 hCc
    generalize hE : Headlight_CheckShortCircuit D = E
    have hEc : E.st.faultConfirmed = true := by
      rw [← hE]; exact Headlight_CheckShortCircuit_latch D hDc
    show (Headlight_UpdateFaultStatus E.st).faultConfirmed = true
    rw [(Headlight_UpdateFaultStatus_fields E.st).2.2.1]
    exact hEc
  · simp only [Headlight_MainFunction]
    rw [if_pos (by simp [hi])]
    exact h

/-- Helper: a tick without overcurrent drives the outputs purely from the
requested command, fault latch or not. -/
theorem Headlight_tick_follows_command (m : Headlight_Module) (cmd : HeadlightCommand)
    (cur : Nat) (hi : m.st.isInitialized = true) (hcur : ¬ (cur > 15000)) :
    (Headlight_MainFunction m cmd cur).st.lowBeamOutput = decide (cmd ≠ .off) ∧
    (Headlight_MainFunction m cmd cur).st.highBeamOutput = decide (cmd = .highBeam) ∧
    (Headlight_MainFunction m cmd cur).dioLowBeam = decide (cmd ≠ .off) ∧
    (Headlight_MainFunction m cmd cur).dioHighBeam = decide (cmd = .highBeam) := by
  unfold Headlight_MainFunction
  rw [if_neg (by simp [hi])]
  generalize hA : Headlight_TickEntry m cmd = A
  have hAcmd : A.st.requestedCommand = cmd := by rw [← hA]; rfl
  generalize hB : Headlight_SetOutputs A = B
  have hBf := Headlight_SetOutputs_fields A
  rw [hB] at hBf
  generalize hC : Headlight_ApplyReadFeedback B cur = C
  have hClo : C.st.lowBeamOutput = B.st.lowBeamOutput := by rw [← hC]; rfl
  have hChi : C.st.highBeamOutput = B.st.highBeamOutput := by rw [← hC]; rfl
  have hCdl : C.dioLowBeam = B.dioLowBeam := by rw [← hC]; rfl
  have hCdh : C.dioHighBeam = B.dioHighBeam := by rw [← hC]; rfl
  have hCcur : C.st.feedbackCurrent = cur := by rw [← hC]; rfl
  generalize hD : Headlight_ApplyCheckOpenLoad C = D
  have hDst : D.st = Headlight_CheckOpenLoad C.st := by rw [← hD]; rfl
  have hDf := Headlight_CheckOpenLoad_fields C.st
  have hDdl : D.dioLowBeam = C.dioLowBeam := by rw [← hD]; rfl
  have hDdh : D.dioHighBeam = C.dioHighBeam := by rw [← hD]; rfl
  have hDcur : D.st.feedbackCurrent = cur := by rw [hDst, hDf.1, hCcur]
  rw [Headlight_CheckShortCircuit_clear D (by rw [hDcur]; exact hcur)]
  have hU := Headlight_UpdateFaultStatus_fields { D.st with shortCircuitCounter := 0 }
  simp only [Headlight_ApplyUpdateFaultStatus, Headlight_CommitCommand]
  refine ⟨?_, ?_, ?_, ?_⟩
  · show (Headlight_UpdateFaultStatus { D.st with shortCircuitCounter := 0 }).lowBeamOutput = _
    rw [hU.1]
    show D.st.lowBeamOutput = _
    rw [hDst, hDf.2.2.2.1, hClo, hBf.2.2.2.2.1, hAcmd]
  · show (Headlight_UpdateFaultStatus { D.st with shortCircuitCounter := 0 }).highBeamOutput = _
    rw [hU.2.1]
    show D.st.highBeamOutput = _
    rw [hDst, hDf.2.2.2.2.1, hChi, hBf.2.2.2.2.2.1, hAcmd]
  · show D.dioLowBeam = _
    rw [hDdl, hCdl, hBf.2.2.2.2.2.2.1, hAcmd]
  · show D.dioHighBeam = _
    rw [hDdh, hCdh, hBf.2.2.2.2.2.2.2, hAcmd]

/-- C3 counterexample: after Short is confirmed on tick 2 (outputs
de-energised, fault latched), tick 3 arrives with the sensed current
collapsed to 0 and the low-beam line is re-energised by the still-active
LowBeam command — the lines do NOT remain de-energised for the remainder
of the power cycle as the claim requires. -/
theorem C3_counterexample :
    Headlight_ShortRun2.st.faultStatus = .short ∧
    Headlight_ShortRun2.st.faultConfirmed = true ∧
    Headlight_ShortRun2.st.lowBeamOutput = false ∧
    Headlight_ShortRun2.st.highBeamOutput = false ∧
    Headlight_ShortRun3.st.lowBeamOutput = true ∧
    Headlight_ShortRun3.dioLowBeam = true ∧
    Headlight_ShortRun3.st.faultStatus = .short := by
  decide

/-- C3 (amended): once the overcurrent debounce counter reaches
`FaultConfirmCycles` with sensed current above 15000 mA, that tick ends
with both output lines (state fields and DIO channels) de-energised and
the Short fault latched; the confirmed latch survives all later ticks;
but the de-energisation itself only holds on ticks that still sense the
overcurrent — on any tick whose sensed current is at most 15000 mA the
output lines follow the requested command again, latched fault or not. -/
theorem C3_short_circuit_protection :
    (∀ (m : Headlight_Module) (cmd : HeadlightCommand) (cur : Nat),
        m.st.isInitialized = true → cur > 15000 →
        wrap8 (m.st.shortCircuitCounter + 1) ≥ 2 →
        (Headlight_MainFunction m cmd cur).st.lowBeamOutput = false ∧
        (Headlight_MainFunction m cmd cur).st.highBeamOutput = false ∧
        (Headlight_MainFunction m cmd cur).dioLowBeam = false ∧
        (Headlight_MainFunction m cmd cur).dioHighBeam = false ∧
        (Headlight_MainFunction m cmd cur).st.faultStatus = .short ∧
        (Headlight_MainFunction m cmd cur).st.faultConfirmed = true) ∧
    (∀ (m : Headlight_Module) (cmd : HeadlightCommand) (cur : Nat),
        m.st.faultConfirmed = true →
        (Headlight_MainFunction m cmd cur).st.faultConfirmed = true) ∧
    (∀ (m : Headlight_Module) (cmd : HeadlightCommand) (cur : Nat),
        m.st.isInitialized = true → ¬ (cur > 15000) →
        (Headlight_MainFunction m cmd cur).st.lowBeamOutput = decide (cmd ≠ .off) ∧
        (Headlight_MainFunction m cmd cur).st.highBeamOutput = decide (cmd = .highBeam) ∧
        (Headlight_MainFunction m cmd cur).dioLowBeam = decide (cmd ≠ .off) ∧
        (Headlight_MainFunction m cmd cur).dioHighBeam = decide (cmd = .highBeam)) :=
  ⟨Headlight_tick_confirm, Headlight_tick_latch, Headlight_tick_follows_command⟩

/-- C3 witness: the three conjuncts applied on the short-circuit scenario
(confirmation on tick 2, latch survival and command-following on tick 3). -/
theorem C3_short_circuit_protection_witness :
    (Headlight_MainFunction Headlight_ShortRun1 .lowBeam 20000).st.faultStatus = .short ∧
    (Headlight_MainFunction Headlight_ShortRun2 .lowBeam 0).st.faultConfirmed = true ∧
    (Headlight_MainFunction Headlight_ShortRun2 .lowBeam 0).st.lowBeamOutput
      = decide ((HeadlightCommand.lowBeam) ≠ .off) :=
  ⟨(C3_short_circuit_protection.1 Headlight_ShortRun1 .lowBeam 20000
      (by decide) (by decide) (by decide)).2.2.2.2.1,
   C3_short_circuit_protection.2.1 Headlight_ShortRun2 .lowBeam 0 (by decide),
   (C3_short_circuit_protection.2.2 Headlight_ShortRun2 .lowBeam 0
      (by decide) (by decide)).1⟩

/-! ## C6: ambient validity and fault-status latching -/

/-- Helper: `LightRequest_CheckOpenCircuit` keeps the status inside the
fault set. -/
theorem LightRequest_CheckOpenCircuit_mono (st : LightRequest_StateType)
    (h : st.signalStatus = .openCircuit ∨ st.signalStatus = .shortCircuit ∨
         st.signalStatus = .plausibility) :
    (LightRequest_CheckOpenCircuit st).signalStatus = .openCircuit ∨
    (LightRequest_CheckOpenCircuit st).signalStatus = .shortCircuit ∨
    (LightRequest_CheckOpenCircuit st).signalStatus = .plausibility := by
  unfold LightRequest_CheckOpenCircuit
  split_ifs <;> simp_all

/-- Helper: `LightRequest_CheckShortCircuit` keeps the status inside the
fault set. -/
theorem LightRequest_CheckShortCircuit_mono (st : LightRequest_StateType)
    (h : st.signalStatus = .openCircuit ∨ st.signalStatus = .shortCircuit ∨
         st.signalStatus = .plausibility) :
    (LightRequest_CheckShortCircuit st).signalStatus = .openCircuit ∨
    (LightRequest_CheckShortCircuit st).signalStatus = .shortCircuit ∨
    (LightRequest_CheckShortCircuit st).signalStatus = .plausibility := by
  unfold LightRequest_CheckShortCircuit
  split_ifs <;> simp_all

/-- Helper: `LightRequest_CheckPlausibility` keeps the status inside the
fault set. -/
theorem LightRequest_CheckPlausibility_mono (st : LightRequest_StateType)
    (h : st.signalStatus = .openCircuit ∨ st.signalStatus = .shortCircuit ∨
         st.signalStatus = .plausibility) :
    (LightRequest_CheckPlausibility st).signalStatus = .openCircuit ∨
    (LightRequest_CheckPlausibility st).signalStatus = .shortCircuit ∨
    (LightRequest_CheckPlausibility st).signalStatus = .plausibility := by
  unfold LightRequest_CheckPlausibility
  split_ifs <;> (try simp_all) <;> split_ifs <;> simp_all

/-- Helper: `LightRequest_UpdateOutput` does not clear a fault status. -/
theorem LightRequest_UpdateOutput_faulty (st : LightRequest_StateType)
    (h : st.signalStatus = .openCircuit ∨ st.signalStatus = .shortCircuit ∨
         st.signalStatus = .plausibility) :
    (LightRequest_UpdateOutput st).signalStatus = st.signalStatus := by
  unfold LightRequest_UpdateOutput
  split_ifs <;> simp_all

/-- Helper: `LightRequest_UpdateOutput` publishes Valid exactly when no
fault status is pending and the buffer is full. -/
theorem LightRequest_UpdateOutput_valid (st : LightRequest_StateType)
    (h1 : ¬ (st.signalStatus = .openCircuit ∨ st.signalStatus = .shortCircuit ∨
             st.signalStatus = .plausibility))
    (h2 : st.adcSampleCount ≥ 4) :
    (LightRequest_UpdateOutput st).signalStatus = .valid ∧
    (LightRequest_UpdateOutput st).ambientLight.isValid = true := by
  unfold LightRequest_UpdateOutput
  split_ifs <;> simp_all

/-- Helper: the whole per-tick check chain keeps the status inside the
fault set. -/
theorem LightRequest_ProcessChecks_mono (st : LightRequest_StateType) (raw : Nat)
    (h : st.signalStatus = .openCircuit ∨ st.signalStatus = .shortCircuit ∨
         st.signalStatus = .plausibility) :
    (LightRequest_ProcessChecks st raw).signalStatus = .openCircuit ∨
    (LightRequest_ProcessChecks st raw).signalStatus = .shortCircuit ∨
    (LightRequest_ProcessChecks st raw).signalStatus = .plausibility := by
  have h0 : (LightRequest_ApplyFilter (LightRequest_ReadAdc st raw)).signalStatus
      = st.signalStatus := rfl
  unfold LightRequest_ProcessChecks
  exact LightRequest_CheckPlausibility_mono _
    (LightRequest_CheckShortCircuit_mono _
      (LightRequest_CheckOpenCircuit_mono _ (h0 ▸ h)))

/-- C6 counterexample: a single out-of-range sample (50) latches
OpenCircuit; three in-range samples later the tick ends with filtered
value 1512 (inside [100, 3995]), a full 4-sample buffer and no
plausibility fault raised, yet the signal status is still OpenCircuit and
validity false — the fault status raised at an earlier tick does NOT
self-clear as the claim requires. -/
theorem C6_counterexample :
    LightRequest_RecoveryRun.st.adcFilteredValue = 1512 ∧
    LightRequest_RecoveryRun.st.adcSampleCount = 4 ∧
    LightRequest_RecoveryRun.st.plausibilityFault = false ∧
    LightRequest_RecoveryRun.st.signalStatus = .openCircuit ∧
    LightRequest_RecoveryRun.st.ambientLight.isValid = false := by
  decide

/-- C6 (amended): the Valid verdict additionally requires that no
electrical or plausibility fault status has been latched at an earlier
tick: (1) once `signalStatus` is OpenCircuit, ShortCircuit or
Plausibility it remains one of those three after every further tick — the
status never self-clears within a power cycle; (2) on a tick whose check
chain ends with the status outside the fault set and at least
`AdcSamples` (4) samples accumulated, the emitted status is Valid and the
validity flag is true. -/
theorem C6_valid_requires_no_latched_fault :
    (∀ (m : LightRequest_Module) (raw : Nat),
        m.st.signalStatus = .openCircuit ∨ m.st.signalStatus = .shortCircuit ∨
        m.st.signalStatus = .plausibility →
        (LightRequest_MainFunction m raw).st.signalStatus = .openCircuit ∨
        (LightRequest_MainFunction m raw).st.signalStatus = .shortCircuit ∨
        (LightRequest_MainFunction m raw).st.signalStatus = .plausibility) ∧
    (∀ (m : LightRequest_Module) (raw : Nat),
        m.st.isInitialized = true →
        ¬ ((LightRequest_ProcessChecks { m.st with currentTimestamp := m.systemTime } raw).signalStatus = .openCircuit ∨
           (LightRequest_ProcessChecks { m.st with currentTimestamp := m.systemTime } raw).signalStatus = .shortCircuit ∨
           (LightRequest_ProcessChecks { m.st with currentTimestamp := m.systemTime } raw).signalStatus = .plausibility) →
        (LightRequest_ProcessChecks { m.st with currentTimestamp := m.systemTime } raw).adcSampleCount ≥ 4 →
        (LightRequest_MainFunction m raw).st.signalStatus = .valid ∧
        (LightRequest_MainFunction m raw).st.ambientLight.isValid = true) := by
  constructor
  · intro m raw h
    by_cases hi : m.st.isInitialized
    · unfold LightRequest_MainFunction
      rw [if_neg (by simp [hi])]
      have hmid := LightRequest_ProcessChecks_mono
        { m.st with currentTimestamp := m.systemTime } raw (by simpa using h)
      show (LightRequest_UpdateOutput _).signalStatus = _ ∨
           (LightRequest_UpdateOutput _).signalStatus = _ ∨
           (LightRequest_UpdateOutput _).signalStatus = _
      rw [LightRequest_UpdateOutput_faulty _ hmid]
      exact hmid
    · unfold LightRequest_MainFunction
      rw [if_pos (by simp [hi])]
      exact h
  · intro m raw hi h1 h2
    unfold LightRequest_MainFunction
    rw [if_neg (by simp [hi])]
    exact LightRequest_UpdateOutput_valid _ h1 h2

/-- C6 witness: the latch conjunct on the recovery scenario (OpenCircuit
stays latched through another in-range tick) and the Valid conjunct on a
fresh component fed four in-range samples. -/
theorem C6_valid_requires_no_latched_fault_witness :
    ((LightRequest_MainFunction LightRequest_RecoveryRun 2000).st.signalStatus = .openCircuit ∨
     (LightRequest_MainFunction LightRequest_RecoveryRun 2000).st.signalStatus = .shortCircuit ∨
     (LightRequest_MainFunction LightRequest_RecoveryRun 2000).st.signalStatus = .plausibility) ∧
    (LightRequest_MainFunction
        (LightRequest_Run { st := LightRequest_Init, systemTime := 0 } [2000, 2000, 2000])
        2000).st.signalStatus = .valid :=
  ⟨C6_valid_requires_no_latched_fault.1 LightRequest_RecoveryRun 2000 (by decide),
   (C6_valid_requires_no_latched_fault.2
      (LightRequest_Run { st := LightRequest_Init, systemTime := 0 } [2000, 2000, 2000])
      2000 (by decide) (by decide) (by decide)).1⟩

/-! ## C5: out-of-range command handling in the switch report -/

/-- Helper: a tick with a buffered frame that passes the E2E check but
carries an out-of-range command byte updates the E2E states, keeps the
stored command, transiently clears the validity flag and resets the
frame-timeout bookkeeping. -/
theorem SwitchEvent_PerformE2ECheck_okFrame (st : SwitchEvent_StateType)
    (hNew : st.newMessageReceived = true)
    (hOk : (E2E_P01Check st.e2eConfig st.e2eCheckState st.lastMessageData).2 = .ok ∨
           (E2E_P01Check st.e2eConfig st.e2eCheckState st.lastMessageData).2 = .okSomeLost ∨
           (E2E_P01Check st.e2eConfig st.e2eCheckState st.lastMessageData).2 = .initial)
    (hCmd : st.lastMessageData.getD 2 0 > 3) :
    SwitchEvent_PerformE2ECheck st =
      { st with
        e2eCheckState := (E2E_P01Check st.e2eConfig st.e2eCheckState st.lastMessageData).1
        e2eStatus := (E2E_P01Check st.e2eConfig st.e2eCheckState st.lastMessageData).2
        e2eSmState := E2E_SMCheck st.e2eSmConfig st.e2eSmState
          (E2E_P01Check st.e2eConfig st.e2eCheckState st.lastMessageData).2
        e2eSmStatus := (E2E_SMCheck st.e2eSmConfig st.e2eSmState
          (E2E_P01Check st.e2eConfig st.e2eCheckState st.lastMessageData).2).SMState
        lightSwitchStatus := { st.lightSwitchStatus with isValid := false }
        consecutiveE2EErrors := 0
        lastValidTimestamp := st.currentTimestamp
        timeoutCounter := 0
        e2eFailureActive := false
        newMessageReceived := false } := by
  have hBad : SwitchEvent_IsCommandValid (st.lastMessageData.getD 2 0) = false := by
    unfold SwitchEvent_IsCommandValid
    simp only [decide_eq_false_iff_not]
    omega
  unfold SwitchEvent_PerformE2ECheck SwitchEvent_ExtractLightSwitchCommand
  dsimp only
  rw [if_pos hNew, if_pos hOk, hBad]
  simp

/-- Helper: the timeout update on a state that has just accepted a frame
(no pending message, timeout counter reset) ends with the timeout flag
clear and the switch report untouched. -/
theorem SwitchEvent_UpdateTimeoutStatus_fresh (st : SwitchEvent_StateType)
    (hN : st.newMessageReceived = false) (hT : st.timeoutCounter = 0) :
    (SwitchEvent_UpdateTimeoutStatus st).timeoutActive = false ∧
    (SwitchEvent_UpdateTimeoutStatus st).lightSwitchStatus = st.lightSwitchStatus ∧
    (SwitchEvent_UpdateTimeoutStatus st).e2eSmStatus = st.e2eSmStatus ∧
    (SwitchEvent_UpdateTimeoutStatus st).e2eStatus = st.e2eStatus := by
  unfold SwitchEvent_UpdateTimeoutStatus
  rw [hN, hT]
  norm_num [wrap16]
  split_ifs <;> simp_all

/-- Helper: the final validity decision overwrites the validity flag with
(supervisor Valid AND no timeout) and keeps the command. -/
theorem SwitchEvent_DecideValidity_fields (st : SwitchEvent_StateType) :
    (SwitchEvent_DecideValidity st).lightSwitchStatus.command
      = st.lightSwitchStatus.command ∧
    (SwitchEvent_DecideValidity st).lightSwitchStatus.isValid
      = (decide (st.e2eSmStatus = .valid) && !st.timeoutActive) ∧
    (SwitchEvent_DecideValidity st).e2eSmStatus = st.e2eSmStatus ∧
    (SwitchEvent_DecideValidity st).timeoutActive = st.timeoutActive ∧
    (SwitchEvent_DecideValidity st).e2eStatus = st.e2eStatus := by
  unfold SwitchEvent_DecideValidity
  split_ifs <;> simp_all

/-- Helper: the tick tail (timeout update, validity decision, status byte
publication) on a fresh post-acceptance state. -/
theorem SwitchEvent_tick_tail (R : SwitchEvent_StateType)
    (hN : R.newMessageReceived = false) (hT : R.timeoutCounter = 0) :
    (SwitchEvent_PublishE2EByte (SwitchEvent_DecideValidity
        (SwitchEvent_UpdateTimeoutStatus R))).lightSwitchStatus.command
      = R.lightSwitchStatus.command ∧
    (SwitchEvent_PublishE2EByte (SwitchEvent_DecideValidity
        (SwitchEvent_UpdateTimeoutStatus R))).timeoutActive = false ∧
    (SwitchEvent_PublishE2EByte (SwitchEvent_DecideValidity
        (SwitchEvent_UpdateTimeoutStatus R))).lightSwitchStatus.isValid
      = decide ((SwitchEvent_PublishE2EByte (SwitchEvent_DecideValidity
          (SwitchEvent_UpdateTimeoutStatus R))).e2eSmStatus = .valid) := by
  generalize hU : SwitchEvent_UpdateTimeoutStatus R = U
  have hUf := SwitchEvent_UpdateTimeoutStatus_fresh R hN hT
  rw [hU] at hUf
  have hDf := SwitchEvent_DecideValidity_fields U
  refine ⟨?_, ?_, ?_⟩
  · show (SwitchEvent_DecideValidity U).lightSwitchStatus.command = _
    rw [hDf.1, hUf.2.1]
  · show (SwitchEvent_DecideValidity U).timeoutActive = _
    rw [hDf.2.2.2.1, hUf.1]
  · show (SwitchEvent_DecideValidity U).lightSwitchStatus.isValid
      = decide ((SwitchEvent_DecideValidity U).e2eSmStatus = _)
    rw [hDf.2.1, hDf.2.2.1, hUf.1]
    simp

/-- C5 counterexample: after three accepted in-range frames the supervisor
is Valid; a fourth frame passes the E2E check (status Ok) but carries
command byte 4 > 3.  At the end of that tick the emitted report keeps the
previously accepted command as the claim says, but it is marked VALID
(isValid = true), not invalid: the final validity decision, made from the
supervisor state and the timeout flag, overwrites the invalidation done
by the range check. -/
theorem C5_counterexample :
    SwitchEvent_OutOfRangePre.st.newMessageReceived = true ∧
    (E2E_P01Check SwitchEvent_OutOfRangePre.st.e2eConfig
        SwitchEvent_OutOfRangePre.st.e2eCheckState
        SwitchEvent_OutOfRangePre.st.lastMessageData).2 = .ok ∧
    SwitchEvent_OutOfRangePre.st.lastMessageData.getD 2 0 = 4 ∧
    SwitchEvent_OutOfRangePost = SwitchEvent_MainFunction SwitchEvent_OutOfRangePre ∧
    SwitchEvent_OutOfRangePost.st.lightSwitchStatus.isValid = true ∧
    SwitchEvent_OutOfRangePost.st.lightSwitchStatus.command = .off := by
  decide

/-- C5 (amended): on a tick whose pending frame passes the E2E check
(status Ok, OkSomeLost or Initial) but carries a command code above 3,
the emitted switch report keeps the most recently accepted in-range
command, the frame-timeout flag ends the tick clear, and the report's
validity flag is determined solely by the supervisor state (valid iff the
supervisor ends the tick Valid) — the out-of-range frame does NOT force
the emitted report invalid: the invalidation done by the range check is
overwritten by the final validity decision. -/
theorem C5_out_of_range_command (m : SwitchEvent_Module)
    (hi : m.st.isInitialized = true)
    (hNew : m.st.newMessageReceived = true)
    (hOk : (E2E_P01Check m.st.e2eConfig m.st.e2eCheckState m.st.lastMessageData).2 = .ok ∨
           (E2E_P01Check m.st.e2eConfig m.st.e2eCheckState m.st.lastMessageData).2 = .okSomeLost ∨
           (E2E_P01Check m.st.e2eConfig m.st.e2eCheckState m.st.lastMessageData).2 = .initial)
    (hCmd : m.st.lastMessageData.getD 2 0 > 3) :
    (SwitchEvent_MainFunction m).st.lightSwitchStatus.command
      = m.st.lightSwitchStatus.command ∧
    (SwitchEvent_MainFunction m).st.timeoutActive = false ∧
    (SwitchEvent_MainFunction m).st.lightSwitchStatus.isValid
      = decide ((SwitchEvent_MainFunction m).st.e2eSmStatus = .valid) := by
  unfold SwitchEvent_MainFunction
  rw [if_neg (by simp [hi])]
  rw [SwitchEvent_PerformE2ECheck_okFrame { m.st with currentTimestamp := m.systemTime }
    hNew hOk hCmd]
  exact SwitchEvent_tick_tail _ rfl rfl

/-- C5 witness: the amended theorem applied to the out-of-range scenario
state. -/
theorem C5_out_of_range_command_witness :
    (SwitchEvent_MainFunction SwitchEvent_OutOfRangePre).st.lightSwitchStatus.command
      = SwitchEvent_OutOfRangePre.st.lightSwitchStatus.command ∧
    (SwitchEvent_MainFunction SwitchEvent_OutOfRangePre).st.timeoutActive = false ∧
    (SwitchEvent_MainFunction SwitchEvent_OutOfRangePre).st.lightSwitchStatus.isValid
      = decide ((SwitchEvent_MainFunction SwitchEvent_OutOfRangePre).st.e2eSmStatus
          = .valid) :=
  C5_out_of_range_command SwitchEvent_OutOfRangePre (by decide) (by decide)
    (by decide) (by decide)

/-! ## C7: priority of simultaneous safe-state triggers -/

/-- Helper: a latched safe state ignores further triggers. -/
theorem SafetyMonitor_TriggerSafeState_latched (x : SafetyMonitor_Module)
    (r : SafeStateReason) (h : x.st.inSafeState = true) :
    SafetyMonitor_TriggerSafeState x r = x := by
  unfold SafetyMonitor_TriggerSafeState
  rw [if_neg (by simp [h])]

/-- Helper: the first trigger latches and captures the reason. -/
theorem SafetyMonitor_TriggerSafeState_fresh (x : SafetyMonitor_Module)
    (r : SafeStateReason) (h : x.st.inSafeState = false) :
    SafetyMonitor_TriggerSafeState x r =
      { x with st := { x.st with inSafeState := true
                                 safeStateReason := r
                                 safeStateEntryTime := x.st.currentTime
                                 globalStatus := .safeState }
               flmTriggerRaised := true
               flmTriggerReason := r } := by
  unfold SafetyMonitor_TriggerSafeState
  rw [if_pos (by simp [h])]

/-- Helper: once latched, the E2E timeout check keeps latch and reason. -/
theorem SafetyMonitor_CheckE2ETimeout_keeps (x : SafetyMonitor_Module)
    (h : x.st.inSafeState = true) :
    (SafetyMonitor_CheckE2ETimeout x).st.inSafeState = true ∧
    (SafetyMonitor_CheckE2ETimeout x).st.safeStateReason = x.st.safeStateReason := by
  unfold SafetyMonitor_CheckE2ETimeout
  split_ifs <;> (try simp_all) <;>
    rw [SafetyMonitor_TriggerSafeState_latched _ _ h] <;> simp_all

/-- Helper: once latched, the watchdog check keeps latch and reason. -/
theorem SafetyMonitor_CheckWdgMStatus_keeps (x : SafetyMonitor_Module)
    (h : x.st.inSafeState = true) :
    (SafetyMonitor_CheckWdgMStatus x).st.inSafeState = true ∧
    (SafetyMonitor_CheckWdgMStatus x).st.safeStateReason = x.st.safeStateReason := by
  unfold SafetyMonitor_CheckWdgMStatus
  split_ifs <;> (try simp_all) <;>
    rw [SafetyMonitor_TriggerSafeState_latched _ _ h] <;> simp_all

/-- Helper: once latched, the FTTI check keeps latch and reason. -/
theorem SafetyMonitor_CheckFTTI_keeps (x : SafetyMonitor_Module)
    (h : x.st.inSafeState = true) :
    (SafetyMonitor_CheckFTTI x).st.inSafeState = true ∧
    (SafetyMonitor_CheckFTTI x).st.safeStateReason = x.st.safeStateReason := by
  unfold SafetyMonitor_CheckFTTI
  split_ifs <;> (try simp_all) <;>
    rw [SafetyMonitor_TriggerSafeState_latched _ _ h] <;> simp_all

/-- Helper: once latched after fault aggregation, the rest of the tick
keeps the latch and the captured reason. -/
theorem SafetyMonitor_tail_keeps (x : SafetyMonitor_Module)
    (h : x.st.inSafeState = true) :
    (SafetyMonitor_ApplySafeCommand (SafetyMonitor_ApplyGlobalStatus
        (SafetyMonitor_CheckFTTI (SafetyMonitor_CheckWdgMStatus
          (SafetyMonitor_CheckE2ETimeout x))))).st.safeStateReason
      = x.st.safeStateReason ∧
    (SafetyMonitor_ApplySafeCommand (SafetyMonitor_ApplyGlobalStatus
        (SafetyMonitor_CheckFTTI (SafetyMonitor_CheckWdgMStatus
          (SafetyMonitor_CheckE2ETimeout x))))).st.inSafeState = true := by
  generalize hC : SafetyMonitor_CheckE2ETimeout x = C
  have hCf := SafetyMonitor_CheckE2ETimeout_keeps x h
  rw [hC] at hCf
  generalize hD : SafetyMonitor_CheckWdgMStatus C = D
  have hDf := SafetyMonitor_CheckWdgMStatus_keeps C hCf.1
  rw [hD] at hDf
  generalize hE : SafetyMonitor_CheckFTTI D = E
  have hEf := SafetyMonitor_CheckFTTI_keeps D hDf.1
  rw [hE] at hEf
  have hG1 : (SafetyMonitor_UpdateGlobalStatus E.st).safeStateReason
      = E.st.safeStateReason := by
    unfold SafetyMonitor_UpdateGlobalStatus; split_ifs <;> simp_all
  have hG2 : (SafetyMonitor_UpdateGlobalStatus E.st).inSafeState = E.st.inSafeState := by
    unfold SafetyMonitor_UpdateGlobalStatus; split_ifs <;> simp_all
  unfold SafetyMonitor_ApplySafeCommand SafetyMonitor_ApplyGlobalStatus
  split_ifs <;>
    simp_all [SafetyMonitor_DetermineSafeStateCommand] <;>
    split_ifs <;> simp_all

/-- Helper: with fewer than 3 faults, aggregation only updates the FTTI
bookkeeping and the fault count. -/
theorem SafetyMonitor_AggregrateFaults_noMulti (x : SafetyMonitor_Module)
    (hF : (if x.st.switchEventFault then 1 else 0) +
          (if x.st.lightRequestFault then 1 else 0) +
          (if x.st.headlightFault then 1 else 0) +
          (if x.st.wdgmFault then 1 else 0) < 3) :
    (SafetyMonitor_AggregrateFaults x).st.inSafeState = x.st.inSafeState ∧
    (SafetyMonitor_AggregrateFaults x).st.safeStateReason = x.st.safeStateReason ∧
    (SafetyMonitor_AggregrateFaults x).st.e2eSmStatus = x.st.e2eSmStatus ∧
    (SafetyMonitor_AggregrateFaults x).st.e2eTimeoutActive = x.st.e2eTimeoutActive ∧
    (SafetyMonitor_AggregrateFaults x).st.e2eFailureStartTime = x.st.e2eFailureStartTime ∧
    (SafetyMonitor_AggregrateFaults x).st.currentTime = x.st.currentTime ∧
    (SafetyMonitor_AggregrateFaults x).st.wdgmGlobalStatus = x.st.wdgmGlobalStatus := by
  unfold SafetyMonitor_AggregrateFaults
  rw [if_neg (by omega)]
  split_ifs <;> simp_all

/-- Helper: 3 or more faults latch safe state with reason MultiFault
during aggregation, before the E2E and watchdog checks run. -/
theorem SafetyMonitor_AggregrateFaults_multi (x : SafetyMonitor_Module)
    (hS : x.st.inSafeState = false)
    (hF : (if x.st.switchEventFault then 1 else 0) +
          (if x.st.lightRequestFault then 1 else 0) +
          (if x.st.headlightFault then 1 else 0) +
          (if x.st.wdgmFault then 1 else 0) ≥ 3) :
    (SafetyMonitor_AggregrateFaults x).st.inSafeState = true ∧
    (SafetyMonitor_AggregrateFaults x).st.safeStateReason = .multiFault := by
  unfold SafetyMonitor_AggregrateFaults
  rw [if_pos (by omega)]
  split_ifs <;>
    rw [SafetyMonitor_TriggerSafeState_fresh _ _ (by simp_all)] <;> simp_all

/-- Helper: a not-Valid supervisor with the timeout armed for at least
100 ms latches reason E2eFailure. -/
theorem SafetyMonitor_CheckE2ETimeout_fires (x : SafetyMonitor_Module)
    (hS : x.st.inSafeState = false)
    (h1 : x.st.e2eSmStatus ≠ .valid)
    (h2 : x.st.e2eTimeoutActive = true)
    (h3 : sub32 x.st.currentTime x.st.e2eFailureStartTime ≥ 100) :
    (SafetyMonitor_CheckE2ETimeout x).st.inSafeState = true ∧
    (SafetyMonitor_CheckE2ETimeout x).st.safeStateReason = .e2eFailure := by
  unfold SafetyMonitor_CheckE2ETimeout
  rw [if_pos h1, if_neg (by simp [h2]), if_pos h3,
    SafetyMonitor_TriggerSafeState_fresh _ _ hS]
  simp

/-- Helper: when the E2E trigger condition does not hold, the check
changes neither the latch nor the reason nor the watchdog snapshot. -/
theorem SafetyMonitor_CheckE2ETimeout_silent (x : SafetyMonitor_Module)
    (hno : ¬ (x.st.e2eSmStatus ≠ .valid ∧ x.st.e2eTimeoutActive = true ∧
              sub32 x.st.currentTime x.st.e2eFailureStartTime ≥ 100)) :
    (SafetyMonitor_CheckE2ETimeout x).st.inSafeState = x.st.inSafeState ∧
    (SafetyMonitor_CheckE2ETimeout x).st.safeStateReason = x.st.safeStateReason ∧
    (SafetyMonitor_CheckE2ETimeout x).st.wdgmGlobalStatus = x.st.wdgmGlobalStatus := by
  unfold SafetyMonitor_CheckE2ETimeout
  split_ifs <;> simp_all

/-- Helper: a Failed or Expired watchdog latches reason WdgmFailure. -/
theorem SafetyMonitor_CheckWdgMStatus_fires (x : SafetyMonitor_Module)
    (hS : x.st.inSafeState = false)
    (hW : x.st.wdgmGlobalStatus = .failed ∨ x.st.wdgmGlobalStatus = .expired) :
    (SafetyMonitor_CheckWdgMStatus x).st.inSafeState = true ∧
    (SafetyMonitor_CheckWdgMStatus x).st.safeStateReason = .wdgmFailure := by
  unfold SafetyMonitor_CheckWdgMStatus
  rw [if_pos hW, SafetyMonitor_TriggerSafeState_fresh _ _ hS]
  simp

/-- Helper: once latched before the FTTI check, the rest of the tick
keeps latch and reason. -/
theorem SafetyMonitor_keeps_after_ftti (x : SafetyMonitor_Module)
    (h : x.st.inSafeState = true) :
    (SafetyMonitor_ApplySafeCommand (SafetyMonitor_ApplyGlobalStatus
        (SafetyMonitor_CheckFTTI x))).st.safeStateReason = x.st.safeStateReason ∧
    (SafetyMonitor_ApplySafeCommand (SafetyMonitor_ApplyGlobalStatus
        (SafetyMonitor_CheckFTTI x))).st.inSafeState = true := by
  generalize hE : SafetyMonitor_CheckFTTI x = E
  have hEf := SafetyMonitor_CheckFTTI_keeps x h
  rw [hE] at hEf
  have hG1 : (SafetyMonitor_UpdateGlobalStatus E.st).safeStateReason
      = E.st.safeStateReason := by
    unfold SafetyMonitor_UpdateGlobalStatus; split_ifs <;> simp_all
  have hG2 : (SafetyMonitor_UpdateGlobalStatus E.st).inSafeState = E.st.inSafeState := by
    unfold SafetyMonitor_UpdateGlobalStatus; split_ifs <;> simp_all
  unfold SafetyMonitor_ApplySafeCommand SafetyMonitor_ApplyGlobalStatus
  split_ifs <;>
    simp_all [SafetyMonitor_DetermineSafeStateCommand] <;>
    split_ifs <;> simp_all

/-- Helper: once latched before the watchdog check, the rest of the tick
keeps latch and reason. -/
theorem SafetyMonitor_keeps_after_wdgm (x : SafetyMonitor_Module)
    (h : x.st.inSafeState = true) :
    (SafetyMonitor_ApplySafeCommand (SafetyMonitor_ApplyGlobalStatus
        (SafetyMonitor_CheckFTTI (SafetyMonitor_CheckWdgMStatus x)))).st.safeStateReason
      = x.st.safeStateReason ∧
    (SafetyMonitor_ApplySafeCommand (SafetyMonitor_ApplyGlobalStatus
        (SafetyMonitor_CheckFTTI (SafetyMonitor_CheckWdgMStatus x)))).st.inSafeState
      = true := by
  generalize hD : SafetyMonitor_CheckWdgMStatus x = D
  have hDf := SafetyMonitor_CheckWdgMStatus_keeps x h
  rw [hD] at hDf
  have hres := SafetyMonitor_keeps_after_ftti D hDf.1
  exact ⟨hres.1.trans hDf.2, hres.2⟩

/-- Helper: the fault count aggregated from the freshly read component
status equals `SafetyMonitor_InputFaultCount` of the tick inputs. -/
theorem SafetyMonitor_TickEntry_faultCount (m : SafetyMonitor_Module)
    (inp : SafetyMonitor_Inputs) :
    (if (SafetyMonitor_TickEntry m inp).st.switchEventFault then 1 else 0) +
    (if (SafetyMonitor_TickEntry m inp).st.lightRequestFault then 1 else 0) +
    (if (SafetyMonitor_TickEntry m inp).st.headlightFault then 1 else 0) +
    (if (SafetyMonitor_TickEntry m inp).st.wdgmFault then 1 else 0)
      = SafetyMonitor_InputFaultCount inp := by
  show (if !inp.switchValid then 1 else 0) + (if !inp.ambient.isValid then 1 else 0) +
      (if decide (inp.headlightStatus ≠ .none) then 1 else 0) +
      (if decide (inp.wdgmStatus ≠ .ok) then 1 else 0) = _
  unfold SafetyMonitor_InputFaultCount
  split_ifs <;> simp_all

/-- Helper: 3 or more input faults latch MultiFault on that tick. -/
theorem SafetyMonitor_tick_multiFault (m : SafetyMonitor_Module) (inp : SafetyMonitor_Inputs)
    (hi : m.st.isInitialized = true) (hS : m.st.inSafeState = false)
    (hF : SafetyMonitor_InputFaultCount inp ≥ 3) :
    (SafetyMonitor_MainFunction m inp).st.safeStateReason = .multiFault ∧
    (SafetyMonitor_MainFunction m inp).st.inSafeState = true := by
  unfold SafetyMonitor_MainFunction
  rw [if_neg (by simp [hi])]
  generalize hA : SafetyMonitor_TickEntry m inp = A
  have hcount := SafetyMonitor_TickEntry_faultCount m inp
  rw [hA] at hcount
  have hSA : A.st.inSafeState = false := by rw [← hA]; exact hS
  have hAg := SafetyMonitor_AggregrateFaults_multi A hSA (by omega)
  generalize hB : SafetyMonitor_AggregrateFaults A = B
  rw [hB] at hAg
  have hres := SafetyMonitor_tail_keeps B hAg.1
  exact ⟨hres.1.trans hAg.2, hres.2⟩

/-- Helper: below the MultiFault bound, a sustained (at least 100 ms)
not-Valid supervisor latches E2eFailure on that tick, even when the
watchdog condition holds simultaneously. -/
theorem SafetyMonitor_tick_e2ePriority (m : SafetyMonitor_Module) (inp : SafetyMonitor_Inputs)
    (hi : m.st.isInitialized = true) (hS : m.st.inSafeState = false)
    (hF : SafetyMonitor_InputFaultCount inp < 3)
    (he1 : inp.e2eSmStatus ≠ .valid)
    (he2 : m.st.e2eTimeoutActive = true)
    (he3 : sub32 m.systemTime m.st.e2eFailureStartTime ≥ 100) :
    (SafetyMonitor_MainFunction m inp).st.safeStateReason = .e2eFailure ∧
    (SafetyMonitor_MainFunction m inp).st.inSafeState = true := by
  unfold SafetyMonitor_MainFunction
  rw [if_neg (by simp [hi])]
  generalize hA : SafetyMonitor_TickEntry m inp = A
  have hcount := SafetyMonitor_TickEntry_faultCount m inp
  rw [hA] at hcount
  have hSA : A.st.inSafeState = false := by rw [← hA]; exact hS
  have hAe1 : A.st.e2eSmStatus = inp.e2eSmStatus := by rw [← hA]; rfl
  have hAe2 : A.st.e2eTimeoutActive = m.st.e2eTimeoutActive := by rw [← hA]; rfl
  have hAe3 : A.st.e2eFailureStartTime = m.st.e2eFailureStartTime := by rw [← hA]; rfl
  have hAct : A.st.currentTime = m.systemTime := by rw [← hA]; rfl
  have hAg := SafetyMonitor_AggregrateFaults_noMulti A (by omega)
  generalize hB : SafetyMonitor_AggregrateFaults A = B
  rw [hB] at hAg
  have hfire := SafetyMonitor_CheckE2ETimeout_fires B
    (by rw [hAg.1]; exact hSA)
    (by rw [hAg.2.2.1, hAe1]; exact he1)
    (by rw [hAg.2.2.2.1, hAe2]; exact he2)
    (by rw [hAg.2.2.2.2.2.1, hAg.2.2.2.2.1, hAe3, hAct]; exact he3)
  generalize hC : SafetyMonitor_CheckE2ETimeout B = C
  rw [hC] at hfire
  have hres := SafetyMonitor_keeps_after_wdgm C hfire.1
  exact ⟨hres.1.trans hfire.2, hres.2⟩

/-- Helper: below the MultiFault bound and without the E2E condition, a
Failed or Expired watchdog latches WdgmFailure on that tick. -/
theorem SafetyMonitor_tick_wdgmFallback (m : SafetyMonitor_Module) (inp : SafetyMonitor_Inputs)
    (hi : m.st.isInitialized = true) (hS : m.st.inSafeState = false)
    (hF : SafetyMonitor_InputFaultCount inp < 3)
    (hno : ¬ (inp.e2eSmStatus ≠ .valid ∧ m.st.e2eTimeoutActive = true ∧
              sub32 m.systemTime m.st.e2eFailureStartTime ≥ 100))
    (hW : inp.wdgmStatus = .failed ∨ inp.wdgmStatus = .expired) :
    (SafetyMonitor_MainFunction m inp).st.safeStateReason = .wdgmFailure ∧
    (SafetyMonitor_MainFunction m inp).st.inSafeState = true := by
  unfold SafetyMonitor_MainFunction
  rw [if_neg (by simp [hi])]
  generalize hA : SafetyMonitor_TickEntry m inp = A
  have hcount := SafetyMonitor_TickEntry_faultCount m inp
  rw [hA] at hcount
  have hSA : A.st.inSafeState = false := by rw [← hA]; exact hS
  have hAe1 : A.st.e2eSmStatus = inp.e2eSmStatus := by rw [← hA]; rfl
  have hAe2 : A.st.e2eTimeoutActive = m.st.e2eTimeoutActive := by rw [← hA]; rfl
  have hAe3 : A.st.e2eFailureStartTime = m.st.e2eFailureStartTime := by rw [← hA]; rfl
  have hAct : A.st.currentTime = m.systemTime := by rw [← hA]; rfl
  have hAw : A.st.wdgmGlobalStatus = inp.wdgmStatus := by rw [← hA]; rfl
  have hAg := SafetyMonitor_AggregrateFaults_noMulti A (by omega)
  generalize hB : SafetyMonitor_AggregrateFaults A = B
  rw [hB] at hAg
  have hnoB : ¬ (B.st.e2eSmStatus ≠ .valid ∧ B.st.e2eTimeoutActive = true ∧
      sub32 B.st.currentTime B.st.e2eFailureStartTime ≥ 100) := by
    rw [hAg.2.2.1, hAg.2.2.2.1, hAg.2.2.2.2.2.1, hAg.2.2.2.2.1, hAe1, hAe2, hAe3, hAct]
    exact hno
  have hsil := SafetyMonitor_CheckE2ETimeout_silent B hnoB
  generalize hC : SafetyMonitor_CheckE2ETimeout B = C
  rw [hC] at hsil
  have hCin : C.st.inSafeState = false := by rw [hsil.1, hAg.1]; exact hSA
  have hCw : C.st.wdgmGlobalStatus = inp.wdgmStatus := by
    rw [hsil.2.2, hAg.2.2.2.2.2.2, hAw]
  have hfire := SafetyMonitor_CheckWdgMStatus_fires C hCin (by rw [hCw]; exact hW)
  generalize hD : SafetyMonitor_CheckWdgMStatus C = D
  rw [hD] at hfire
  have hres := SafetyMonitor_keeps_after_ftti D hfire.1
  exact ⟨hres.1.trans hfire.2, hres.2⟩

/-- C7 counterexample: 20 ticks with the supervisor not Valid age the E2E
timeout to exactly 100 ms; on tick 21 the watchdog is Failed as well and
the fault count is 1 < 3 — both immediate trigger conditions hold on the
same tick with no prior latch, yet the latched reason is E2eFailure, not
the WdgmFailure the claim requires. -/
theorem C7_counterexample :
    SafetyMonitor_DualTriggerPre.st.inSafeState = false ∧
    SafetyMonitor_DualTriggerPre.st.e2eTimeoutActive = true ∧
    sub32 SafetyMonitor_DualTriggerPre.systemTime
      SafetyMonitor_DualTriggerPre.st.e2eFailureStartTime = 100 ∧
    SafetyMonitor_InputsE2EAndWdgm.wdgmStatus = .failed ∧
    SafetyMonitor_InputsE2EAndWdgm.e2eSmStatus ≠ .valid ∧
    SafetyMonitor_InputFaultCount SafetyMonitor_InputsE2EAndWdgm = 1 ∧
    SafetyMonitor_DualTriggerRun
      = SafetyMonitor_MainFunction SafetyMonitor_DualTriggerPre
          SafetyMonitor_InputsE2EAndWdgm ∧
    SafetyMonitor_DualTriggerRun.st.safeStateReason ≠ .wdgmFailure ∧
    SafetyMonitor_DualTriggerRun.st.safeStateReason = .e2eFailure := by
  decide

/-- C7 (amended): the priority of the immediate safe-state triggers in the
code is MultiFault, then E2eFailure, then WdgmFailure (first match wins):
(1) a fault count of at least `MaxFaultCount` (3) latches MultiFault;
(2) below that, a supervisor not Valid with the E2E timeout armed for at
least `E2eTimeout` (100 ms) latches E2eFailure — also when the watchdog
condition holds on the same tick; (3) below the MultiFault bound and
without the E2E condition, a Failed or Expired watchdog latches
WdgmFailure. -/
theorem C7_trigger_priority :
    (∀ (m : SafetyMonitor_Module) (inp : SafetyMonitor_Inputs),
        m.st.isInitialized = true → m.st.inSafeState = false →
        SafetyMonitor_InputFaultCount inp ≥ 3 →
        (SafetyMonitor_MainFunction m inp).st.safeStateReason = .multiFault ∧
        (SafetyMonitor_MainFunction m inp).st.inSafeState = true) ∧
    (∀ (m : SafetyMonitor_Module) (inp : SafetyMonitor_Inputs),
        m.st.isInitialized = true → m.st.inSafeState = false →
        SafetyMonitor_InputFaultCount inp < 3 →
        inp.e2eSmStatus ≠ .valid → m.st.e2eTimeoutActive = true →
        sub32 m.systemTime m.st.e2eFailureStartTime ≥ 100 →
        (SafetyMonitor_MainFunction m inp).st.safeStateReason = .e2eFailure ∧
        (SafetyMonitor_MainFunction m inp).st.inSafeState = true) ∧
    (∀ (m : SafetyMonitor_Module) (inp : SafetyMonitor_Inputs),
        m.st.isInitialized = true → m.st.inSafeState = false →
        SafetyMonitor_InputFaultCount inp < 3 →
        ¬ (inp.e2eSmStatus ≠ .valid ∧ m.st.e2eTimeoutActive = true ∧
           sub32 m.systemTime m.st.e2eFailureStartTime ≥ 100) →
        inp.wdgmStatus = .failed ∨ inp.wdgmStatus = .expired →
        (SafetyMonitor_MainFunction m inp).st.safeStateReason = .wdgmFailure ∧
        (SafetyMonitor_MainFunction m inp).st.inSafeState = true) :=
  ⟨SafetyMonitor_tick_multiFault, SafetyMonitor_tick_e2ePriority,
   SafetyMonitor_tick_wdgmFallback⟩

/-- C7 witness: the E2eFailure-priority conjunct applied on the
dual-trigger scenario tick. -/
theorem C7_trigger_priority_witness :
    (SafetyMonitor_MainFunction SafetyMonitor_DualTriggerPre
        SafetyMonitor_InputsE2EAndWdgm).st.safeStateReason = .e2eFailure ∧
    (SafetyMonitor_MainFunction SafetyMonitor_DualTriggerPre
        SafetyMonitor_InputsE2EAndWdgm).st.inSafeState = true :=
  C7_trigger_priority.2.1 SafetyMonitor_DualTriggerPre SafetyMonitor_InputsE2EAndWdgm
    (by decide) (by decide) (by decide) (by decide) (by decide) (by decide)

/-! ## C2: the protect-then-check verdict chain -/

/-- Helper: `E2E_P01Protect` on a light-switch frame `[0, 0, a, b]` writes
the counter nibble into byte 1, the CRC into byte 0, and increments the
sender counter. -/
theorem E2E_ProtectShape (p : E2E_P01ProtectStateType) (a b : Nat) :
    E2E_P01Protect SwitchEvent_E2EConfig p [0, 0, a, b] =
      some ({ Counter := E2E_P01_IncrementCounter p.Counter },
        [E2E_P01_ComputeCRC SwitchEvent_E2EConfig [0, p.Counter % 16, a, b],
         p.Counter % 16, a, b]) := by
  simp [E2E_P01Protect, E2E_P01_SetCounter, E2E_P01_SetCRC, SwitchEvent_E2EConfig]

/-- Helper: with `CRCOffset = 0` the CRC computation skips byte 0, so it
does not depend on that byte. -/
theorem E2E_ComputeCRC_first_byte_free (x y c a b : Nat) :
    E2E_P01_ComputeCRC SwitchEvent_E2EConfig [x, c, a, b] =
      E2E_P01_ComputeCRC SwitchEvent_E2EConfig [y, c, a, b] := rfl

/-- Helper: checking the i-th protected frame from the closed-form receiver
state yields the closed-form verdict and the (i+1)-th receiver state.  At a
counter wrap (i a positive multiple of 15) the source delta formula
`15 - last + received + 1` gives 2, within `MaxDeltaCounter = 2`, so the
verdict is OkSomeLost and one lost frame is counted. -/
theorem E2E_ChainCheckStep (i cr a b : Nat)
    (hcrc : E2E_P01_ComputeCRC SwitchEvent_E2EConfig [cr, i % 15, a, b] = cr) :
    E2E_P01Check SwitchEvent_E2EConfig (E2E_ChainCheckState i) [cr, i % 15, a, b]
      = (E2E_ChainCheckState (i + 1), E2E_ChainVerdict i) := by
  by_cases h0 : i = 0
  · subst h0
    simp [E2E_P01Check, E2E_P01_GetCRC, E2E_P01_GetCounter, hcrc,
      SwitchEvent_E2EConfig, E2E_ChainCheckState, E2E_P01CheckInit, E2E_ChainVerdict]
    exact hcrc.symm
  · by_cases hw : i % 15 = 0
    · have h14 : (i - 1) % 15 = 14 := by omega
      have hdelta : E2E_P01_DeltaCounter (i % 15) ((i - 1) % 15) = 2 := by
        rw [E2E_P01_DeltaCounter, if_neg (by omega)]
        rw [hw, h14]; norm_num
      simp only [E2E_P01Check, E2E_P01_GetCRC, E2E_P01_GetCounter,
        SwitchEvent_E2EConfig, E2E_ChainCheckState, if_neg h0, List.length_cons,
        List.getD_cons_zero, List.getD_cons_succ]
      rw [if_neg (by omega)]
      simp only [show i % 15 % 16 = i % 15 from by omega]
      rw [if_neg (by simp only [ne_eq, not_not]; exact hcrc.symm)]
      simp only [Bool.false_eq_true, if_false, hdelta]
      norm_num [E2E_ChainVerdict, h0, hw, wrap16]
      omega
    · have hstep : (i - 1) % 15 + 1 = i % 15 := by omega
      have hdelta : E2E_P01_DeltaCounter (i % 15) ((i - 1) % 15) = 1 := by
        rw [E2E_P01_DeltaCounter, if_pos (by omega)]
        push_cast; omega
      simp only [E2E_P01Check, E2E_P01_GetCRC, E2E_P01_GetCounter,
        SwitchEvent_E2EConfig, E2E_ChainCheckState, if_neg h0, List.length_cons,
        List.getD_cons_zero, List.getD_cons_succ]
      rw [if_neg (by omega)]
      simp only [show i % 15 % 16 = i % 15 from by omega]
      rw [if_neg (by simp only [ne_eq, not_not]; exact hcrc.symm)]
      simp only [Bool.false_eq_true, if_false, hdelta]
      norm_num [E2E_ChainVerdict, h0, hw]
      omega

/-- Helper: one protect-then-check round trip advances both closed-form
states by one and emits the closed-form verdict. -/
theorem E2E_ChainStep (i : Nat) (payload : Nat × Nat) :
    E2E_ProtectCheckStep SwitchEvent_E2EConfig
      (E2E_ChainProtectState i, E2E_ChainCheckState i) payload
    = ((E2E_ChainProtectState (i + 1), E2E_ChainCheckState (i + 1)),
       E2E_ChainVerdict i) := by
  obtain ⟨a, b⟩ := payload
  have hm : i % 15 % 16 = i % 15 := by omega
  have hinc : E2E_P01_IncrementCounter (i % 15) = (i + 1) % 15 := by
    rw [E2E_P01_IncrementCounter]; split_ifs <;> omega
  unfold E2E_ProtectCheckStep
  rw [show (E2E_ChainProtectState i, E2E_ChainCheckState i).1 = E2E_ChainProtectState i
      from rfl]
  rw [E2E_ProtectShape (E2E_ChainProtectState i) a b]
  dsimp only [E2E_ChainProtectState]
  rw [hm]
  rw [E2E_ChainCheckStep i (E2E_P01_ComputeCRC SwitchEvent_E2EConfig [0, i % 15, a, b])
        a b (E2E_ComputeCRC_first_byte_free _ 0 _ _ _)]
  rw [hinc]

/-- Helper: the verdict sequence from the closed-form states at index i is
the closed form shifted by i. -/
theorem E2E_ChainAux (payloads : List (Nat × Nat)) : ∀ i : Nat,
    E2E_ProtectCheckVerdicts SwitchEvent_E2EConfig
      (E2E_ChainProtectState i) (E2E_ChainCheckState i) payloads
    = (List.range payloads.length).map (fun j => E2E_ChainVerdict (i + j)) := by
  induction payloads with
  | nil => intro i; rfl
  | cons hd tl ih =>
      intro i
      unfold E2E_ProtectCheckVerdicts
      rw [E2E_ChainStep i hd]
      dsimp only
      rw [ih (i + 1)]
      simp only [List.length_cons, List.range_succ_eq_map, List.map_cons, List.map_map,
        Nat.add_zero, List.cons.injEq, true_and]
      apply List.map_congr_left
      intro j hj
      simp only [Function.comp]
      rw [show i + (j + 1) = i + 1 + j from by omega]

/-- C2 (amended): from freshly initialised protect and check states under
the light-switch configuration, protect-then-check round trips yield
`E2E_ChainVerdict`: Initial for the first frame, Ok for every subsequent
frame except at each sender counter wrap (frame indices that are positive
multiples of 15), where the verdict is OkSomeLost — not Ok as claimed. -/
theorem C2_protect_check_chain (payloads : List (Nat × Nat)) :
    E2E_ProtectCheckVerdicts SwitchEvent_E2EConfig E2E_P01ProtectInit E2E_P01CheckInit
      payloads
    = (List.range payloads.length).map E2E_ChainVerdict := by
  rw [show E2E_P01ProtectInit = E2E_ChainProtectState 0 from rfl,
      show E2E_P01CheckInit = E2E_ChainCheckState 0 from rfl,
      E2E_ChainAux payloads 0]
  simp

set_option maxRecDepth 4096 in
/-- C2 counterexample: 16 identical payloads protected and checked in
sequence from fresh states.  The claim predicts Initial then fifteen Ok
verdicts; the actual 16th verdict (frame index 15, the first across the
counter wrap from 14 back to 0) is OkSomeLost, not Ok. -/
theorem C2_counterexample :
    E2E_ProtectCheckVerdicts SwitchEvent_E2EConfig E2E_P01ProtectInit E2E_P01CheckInit
        (List.replicate 16 (2, 0))
      = [.initial, .ok, .ok, .ok, .ok, .ok, .ok, .ok, .ok, .ok, .ok, .ok, .ok, .ok,
         .ok, .okSomeLost] ∧
    E2E_P01CheckStatusType.okSomeLost ≠ .ok := by
  decide
